import Mathlib

/-!
Verification development for the pvc-transfer library: a shallow embedding of
the transfer (rsync), transport (stunnel) and identity/naming layers, together
with theorems about the behaviour of the embedded operations.

Go conventions used throughout the embedding:
* Go strings are Lean `String`s; raw bytes are `Nat`s below 256.
* Go maps are association lists in first-insertion order (`mapGet` returns the
  zero value `""` for a missing key, as a Go map read does).
* A Go function that can return an `error` returns a `GoResult`; a run-time
  panic (e.g. a string-slice bound violation) is the `crash` constructor,
  which is distinct from returning a non-nil error.
-/

namespace PvcTransfer

/-- Outcome of a Go computation: a value, a non-nil error, or a run-time
panic.  `errNotFound` stands for a k8s NotFound error, which some call sites
test with `k8serrors.IsNotFound`. -/
inductive GoResult (α : Type) where
  | ok (a : α)
  | err (msg : String)
  | errNotFound
  | crash (msg : String)
  deriving DecidableEq, Repr

/-- Go's whitespace set as relevant to ASCII option tokens
(`strings.TrimSpace` trims `unicode.IsSpace` runes). -/
def isSpaceGo (c : Char) : Bool :=
  c == ' ' || c == '\t' || c == '\n' || (c.toNat == 11) || (c.toNat == 12) || (c.toNat == 13)

/-- `strings.TrimSpace`: drop leading and trailing whitespace. -/
def goTrimSpace (s : String) : String :=
  String.mk (((s.data.dropWhile isSpaceGo).reverse.dropWhile isSpaceGo).reverse)

/-- Go byte-level string slicing/truncation `s[:n]` for an in-range `n`
(identical to character-level slicing on the ASCII strings this library
builds). -/
def goTake (s : String) (n : Nat) : String :=
  String.mk (s.data.take n)

/-- Go map read, `m[k]`: the value stored at `k`, or the zero value `""`. -/
def mapGet (m : List (String × String)) (k : String) : String :=
  match m.find? (fun e => e.1 == k) with
  | some e => e.2
  | none => ""

/-- Go map write, `m[k] = v`: overwrite in place, or append a new entry. -/
def mapSet (m : List (String × String)) (k v : String) : List (String × String) :=
  match m with
  | [] => [(k, v)]
  | e :: rest => if e.1 == k then (k, v) :: rest else e :: mapSet rest k v

/-- Association-list read returning `none` when the key is absent (used where
the Go code does `v, ok := m[k]`). -/
def mapGet? (m : List (String × String)) (k : String) : Option String :=
  (m.find? (fun e => e.1 == k)).map (·.2)

/-! ## MD5 (`crypto/md5` + `encoding/hex`, as used by `getMD5Hash`) -/

/-- The 64 MD5 sine-derived round constants. -/
def md5K : List Nat :=
  [0xd76aa478, 0xe8c7b756, 0x242070db, 0xc1bdceee,
   0xf57c0faf, 0x4787c62a, 0xa8304613, 0xfd469501,
   0x698098d8, 0x8b44f7af, 0xffff5bb1, 0x895cd7be,
   0x6b901122, 0xfd987193, 0xa679438e, 0x49b40821,
   0xf61e2562, 0xc040b340, 0x265e5a51, 0xe9b6c7aa,
   0xd62f105d, 0x02441453, 0xd8a1e681, 0xe7d3fbc8,
   0x21e1cde6, 0xc33707d6, 0xf4d50d87, 0x455a14ed,
   0xa9e3e905, 0xfcefa3f8, 0x676f02d9, 0x8d2a4c8a,
   0xfffa3942, 0x8771f681, 0x6d9d6122, 0xfde5380c,
   0xa4beea44, 0x4bdecfa9, 0xf6bb4b60, 0xbebfbc70,
   0x289b7ec6, 0xeaa127fa, 0xd4ef3085, 0x04881d05,
   0xd9d4d039, 0xe6db99e5, 0x1fa27cf8, 0xc4ac5665,
   0xf4292244, 0x432aff97, 0xab9423a7, 0xfc93a039,
   0x655b59c3, 0x8f0ccc92, 0xffeff47d, 0x85845dd1,
   0x6fa87e4f, 0xfe2ce6e0, 0xa3014314, 0x4e0811a1,
   0xf7537e82, 0xbd3af235, 0x2ad7d2bb, 0xeb86d391]

/-- The 64 per-round left-rotation amounts. -/
def md5S : List Nat :=
  [7, 12, 17, 22, 7, 12, 17, 22, 7, 12, 17, 22, 7, 12, 17, 22,
   5,  9, 14, 20, 5,  9, 14, 20, 5,  9, 14, 20, 5,  9, 14, 20,
   4, 11, 16, 23, 4, 11, 16, 23, 4, 11, 16, 23, 4, 11, 16, 23,
   6, 10, 15, 21, 6, 10, 15, 21, 6, 10, 15, 21, 6, 10, 15, 21]

/-- 32-bit left rotation on a value below `2^32`. -/
def rotl32 (x n : Nat) : Nat :=
  ((x <<< n) + (x >>> (32 - n))) % 4294967296

/-- Round function and message-word index for round `i`. -/
def md5F (b c d i : Nat) : Nat × Nat :=
  if i < 16 then ((b &&& c) ||| ((4294967295 - b) &&& d), i)
  else if i < 32 then ((d &&& b) ||| ((4294967295 - d) &&& c), (5 * i + 1) % 16)
  else if i < 48 then (b ^^^ c ^^^ d, (3 * i + 5) % 16)
  else (c ^^^ (b ||| (4294967295 - d)), (7 * i) % 16)

/-- Little-endian 32-bit word read at byte offset `off`. -/
def md5word (bytes : List Nat) (off : Nat) : Nat :=
  bytes.getD off 0 + 256 * bytes.getD (off + 1) 0 +
    65536 * bytes.getD (off + 2) 0 + 16777216 * bytes.getD (off + 3) 0

/-- One 64-byte chunk of the padded message folded into the running state. -/
def md5chunk (padded : List Nat) (base : Nat) (st : Nat × Nat × Nat × Nat) :
    Nat × Nat × Nat × Nat :=
  let words := (List.range 16).map (fun w => md5word padded (base + 4 * w))
  let f := (List.range 64).foldl
    (fun (t : Nat × Nat × Nat × Nat) i =>
      let (a, b, c, d) := t
      let (fv, g) := md5F b c d i
      let sum := (fv + a + md5K.getD i 0 + words.getD g 0) % 4294967296
      (d, (b + rotl32 sum (md5S.getD i 0)) % 4294967296, b, c))
    st
  ((st.1 + f.1) % 4294967296, (st.2.1 + f.2.1) % 4294967296,
   (st.2.2.1 + f.2.2.1) % 4294967296, (st.2.2.2 + f.2.2.2) % 4294967296)

/-- MD5 padding: `0x80`, zeros to 56 mod 64, then the bit length in
little-endian 64-bit form. -/
def md5pad (msg : List Nat) : List Nat :=
  let n := msg.length
  let zeros := (64 + 56 - ((n + 1) % 64)) % 64
  let bits := (n * 8) % 18446744073709551616
  msg ++ [0x80] ++ List.replicate zeros 0 ++
    (List.range 8).map (fun i => (bits >>> (8 * i)) % 256)

/-- The 16-byte MD5 digest of a byte sequence. -/
def md5digest (msg : List Nat) : List Nat :=
  let padded := md5pad msg
  let final := (List.range (padded.length / 64)).foldl
    (fun st i => md5chunk padded (64 * i) st)
    (0x67452301, 0xefcdab89, 0x98badcfe, 0x10325476)
  let le4 := fun (x : Nat) => [x % 256, (x >>> 8) % 256, (x >>> 16) % 256, (x >>> 24) % 256]
  le4 final.1 ++ le4 final.2.1 ++ le4 final.2.2.1 ++ le4 final.2.2.2

/-- Lowercase hex digit for a nibble. -/
def hexDigit (n : Nat) : Char :=
  if n < 10 then Char.ofNat (48 + n) else Char.ofNat (87 + n)

/-- Lowercase hex encoding of a byte list (`encoding/hex.EncodeToString`). -/
def hexEncode (bytes : List Nat) : String :=
  String.mk (bytes.foldr (fun b acc => hexDigit (b / 16) :: hexDigit (b % 16) :: acc) [])

/-- UTF-8 encoding of one character (Go `[]byte(s)` is the UTF-8 bytes). -/
def utf8Enc (c : Char) : List Nat :=
  let n := c.toNat
  if n < 128 then [n]
  else if n < 2048 then [192 + n / 64, 128 + n % 64]
  else if n < 65536 then [224 + n / 4096, 128 + (n / 64) % 64, 128 + n % 64]
  else [240 + n / 262144, 128 + (n / 4096) % 64, 128 + (n / 64) % 64, 128 + n % 64]

/-- The UTF-8 bytes of a string. -/
def utf8Bytes (s : String) : List Nat :=
  s.data.foldr (fun c acc => utf8Enc c ++ acc) []

/-- `getMD5Hash` from `transfer/pvc_list.go`: hex-encoded MD5 of a string. -/
def getMD5Hash (s : String) : String :=
  hexEncode (md5digest (utf8Bytes s))

/-! ## PVCs and the identity suffix (`transfer/pvc.go`, `transfer/pvc_list.go`) -/

/-- A persistent volume claim reference: `Claim().Namespace` and
`Claim().Name`. -/
structure PVCm where
  ns : String
  name : String
  deriving DecidableEq, Repr

/-- `pvc.LabelSafeName`: the MD5 hex hash of the claim name. -/
def labelSafeName (p : PVCm) : String :=
  getMD5Hash p.name

/-- `pvcList.Namespaces` (`GetNamespaces` in `pvc_list.go`): the distinct
namespaces in first-occurrence order. -/
def pvcNamespaces (pvcs : List PVCm) : List String :=
  (pvcs.foldl (fun acc p => if acc.contains p.ns then acc else acc ++ [p.ns]) [])

/-- `pvcList.InNamespace`: restrict the list to one namespace. -/
def inNamespace (pvcs : List PVCm) (ns : String) : List PVCm :=
  pvcs.filter (fun p => p.ns == ns)

/-- `transfer.NamespaceHashForNames` from `transfer/pvc.go`:

```go
p := map[string]string{}
for _, pvc := range pvcs.PVCs() {
    p[pvc.Claim().Namespace] += pvc.Claim().Name
}
for _, ns := range p {
    p[ns] = getMD5Hash(p[ns])
}
return p
```

The second loop ranges over the map's VALUES (`for _, ns := range p`), not
its keys, so the write `p[ns] = getMD5Hash(p[ns])` targets the key equal to
each accumulated name-concatenation, not the namespace key.  Go leaves the
iteration order unspecified and allows entries inserted during iteration to
be either visited or skipped; we fix one admissible schedule, namely visiting
exactly the entries present when the loop starts, in insertion order.  The
value stored at a namespace key is the same under every admissible
schedule whenever, as in our theorems, no concatenation collides with a
namespace key. -/
def NamespaceHashForNames (pvcs : List PVCm) : List (String × String) :=
  let p := pvcs.foldl (fun m q => mapSet m q.ns (mapGet m q.ns ++ q.name)) []
  (p.map (·.2)).foldl (fun m v => mapSet m v (getMD5Hash (mapGet m v))) p

/-! ## Rsync command options (`transfer/rsync/options.go`) -/

/-- `transfer/rsync` option tokens (the `opt*` constants). -/
def optRecursive : String := "--recursive"

def optSymLinks : String := "--links"

def optPermissions : String := "--perms"

def optModTimes : String := "--times"

def optDeviceFiles : String := "--devices"

def optSpecialFiles : String := "--specials"

def optOwner : String := "--owner"

def optGroup : String := "--group"

def optHardLinks : String := "--hard-links"

def optPartial : String := "--partial"

def optDelete : String := "--delete"

def optHumanReadable : String := "--human-readable"

/-- `CommandOptions` defines options that can be customized in the Rsync
command.  The zero value of every field matches Go's zero value. -/
structure CommandOptions where
  Recursive : Bool := false
  SymLinks : Bool := false
  Permissions : Bool := false
  ModTimes : Bool := false
  DeviceFiles : Bool := false
  SpecialFiles : Bool := false
  Groups : Bool := false
  Owners : Bool := false
  HardLinks : Bool := false
  Delete : Bool := false
  Partial : Bool := false
  BwLimit : Option Int := none
  HumanReadable : Bool := false
  LogFile : String := ""
  Info : List String := []
  Extras : List String := []
  deriving DecidableEq, Repr

/-- Is `c` an ASCII uppercase letter (regex class `[A-Z]`)? -/
def isUpperAZ (c : Char) : Bool :=
  65 ≤ c.toNat && c.toNat ≤ 90

/-- Is `c` an ASCII digit (regex class `\d`)? -/
def isDigit09 (c : Char) : Bool :=
  48 ≤ c.toNat && c.toNat ≤ 57

/-- Is `c` in the regex class `[a-z0-9]`? -/
def isLowerOrDigit (c : Char) : Bool :=
  (97 ≤ c.toNat && c.toNat ≤ 122) || isDigit09 c

/-- Recognizer for the `--info` sub-option regex `^[A-Z]+\d?$` used in
`filterRsyncInfoOptions`: one or more uppercase letters followed by at most
one digit. -/
def infoOptMatch (s : String) : Bool :=
  let cs := s.data
  let up := cs.takeWhile isUpperAZ
  let rest := cs.drop up.length
  !up.isEmpty && (rest.isEmpty || (rest.length == 1 && rest.all isDigit09))

/-- Split a character list at every dash (the segments of `a-b-c`). -/
def splitDash : List Char → List (List Char)
  | [] => [[]]
  | c :: rest =>
    if c == '-' then [] :: splitDash rest
    else
      match splitDash rest with
      | seg :: segs => (c :: seg) :: segs
      | [] => [[c]]

/-- Recognizer for the extra-flag regex `^\-{1,2}([a-z0-9]+\-){0,}?[a-z0-9]+$`
used in `filterRsyncExtraOptions`: one or two dashes, then dash-separated
nonempty runs of `[a-z0-9]`.  The non-greedy `{0,}?` does not change the
accepted language. -/
def extraOptMatch (s : String) : Bool :=
  let cs := s.data
  let dashes := cs.takeWhile (fun c => c == '-')
  let rest := cs.drop dashes.length
  (dashes.length == 1 || dashes.length == 2) && !rest.isEmpty &&
    (splitDash rest).all (fun seg => !seg.isEmpty && seg.all isLowerOrDigit)

/-- The message of `fmt.Errorf("invalid value %s for Rsync option --info", opt)`. -/
def infoErrMsg (opt : String) : String :=
  "invalid value " ++ opt ++ " for Rsync option --info"

/-- The message of `fmt.Errorf("invalid Rsync option %s", opt)`. -/
def extraErrMsg (opt : String) : String :=
  "invalid Rsync option " ++ opt

/-- `filterRsyncInfoOptions`: keep (trimmed) tokens matching `^[A-Z]+\d?$`,
collect an error for each rejected token.  Returns (validated, aggregate
messages); the Go aggregate is nil exactly when the message list is empty. -/
def filterRsyncInfoOptions : List String → List String × List String
  | [] => ([], [])
  | opt :: rest =>
    let r := filterRsyncInfoOptions rest
    if infoOptMatch opt then (goTrimSpace opt :: r.1, r.2) else (r.1, infoErrMsg opt :: r.2)

/-- `filterRsyncExtraOptions`: keep tokens matching the extra-flag regex,
collect an error for each rejected token. -/
def filterRsyncExtraOptions : List String → List String × List String
  | [] => ([], [])
  | opt :: rest =>
    let r := filterRsyncExtraOptions rest
    if extraOptMatch opt then (opt :: r.1, r.2) else (r.1, extraErrMsg opt :: r.2)

/-- `CommandOptions.Options`: the rendered option list plus the aggregated
validation-error messages (`errorsutil.NewAggregate` flattens nested
aggregates and drops nil errors, so the aggregate is modelled as the flat
message list, nil iff empty). -/
def CommandOptions.Options (c : CommandOptions) : List String × List String :=
  let opts : List String := []
  let errs : List String := []
  let opts := if c.Recursive then opts ++ [optRecursive] else opts
  let opts := if c.SymLinks then opts ++ [optSymLinks] else opts
  let opts := if c.Permissions then opts ++ [optPermissions] else opts
  let opts := if c.DeviceFiles then opts ++ [optDeviceFiles] else opts
  let opts := if c.SpecialFiles then opts ++ [optSpecialFiles] else opts
  let opts := if c.ModTimes then opts ++ [optModTimes] else opts
  let opts := if c.Owners then opts ++ [optOwner] else opts
  let opts := if c.Groups then opts ++ [optGroup] else opts
  let opts := if c.HardLinks then opts ++ [optHardLinks] else opts
  let opts := if c.Delete then opts ++ [optDelete] else opts
  let opts := if c.Partial then opts ++ [optPartial] else opts
  let (opts, errs) :=
    match c.BwLimit with
    | some b =>
      if b > 0 then (opts ++ ["--bwlimit=" ++ toString b], errs)
      else (opts, errs ++ ["rsync bwlimit value must be a positive integer"])
    | none => (opts, errs)
  let opts := if c.HumanReadable then opts ++ [optHumanReadable] else opts
  let opts := if c.LogFile ≠ "" then opts ++ ["--log-file=" ++ c.LogFile] else opts
  let (opts, errs) :=
    if c.Info.length > 0 then
      let r := filterRsyncInfoOptions c.Info
      (opts ++ ["--info=" ++ String.intercalate "," r.1], errs ++ r.2)
    else (opts, errs)
  let (opts, errs) :=
    if c.Extras.length > 0 then
      let r := filterRsyncExtraOptions c.Extras
      (opts ++ r.1, errs ++ r.2)
    else (opts, errs)
  (opts, errs)

/-- `ArchiveFiles(a).ApplyTo`: sets the eight archive flags (note: it does
NOT touch `HardLinks`). -/
def archiveFilesApplyTo (a : Bool) (c : CommandOptions) : CommandOptions :=
  { c with Recursive := a, SymLinks := a, Permissions := a, ModTimes := a,
           Groups := a, Owners := a, DeviceFiles := a, SpecialFiles := a }

/-- `StandardProgress(s).ApplyTo`: fixes the `--info` sub-option list and
turns on `--human-readable`. -/
def standardProgressApplyTo (_s : Bool) (c : CommandOptions) : CommandOptions :=
  { c with Info := ["COPY2", "DEL2", "REMOVE2", "SKIP2", "FLIST2", "PROGRESS2", "STATS2"],
           HumanReadable := true }

/-- `DeleteDestination(d).ApplyTo`: sets only the `Delete` flag. -/
def deleteDestinationApplyTo (d : Bool) (c : CommandOptions) : CommandOptions :=
  { c with Delete := d }

/-- `PreserveOwnership(p).ApplyTo`. -/
def preserveOwnershipApplyTo (p : Bool) (c : CommandOptions) : CommandOptions :=
  { c with Owners := p, Groups := p }

/-- `rsyncCommandDefaultOptions`: `ArchiveFiles(true)` then
`StandardProgress(true)`.  These appliers never return an error. -/
def rsyncCommandDefaultOptions : List (CommandOptions → CommandOptions) :=
  [archiveFilesApplyTo true, standardProgressApplyTo true]

/-- `CommandOptions.Apply` over appliers that cannot fail: fold in order. -/
def applyAll (c : CommandOptions) (fs : List (CommandOptions → CommandOptions)) :
    CommandOptions :=
  fs.foldl (fun acc f => f acc) c

/-- `rsyncDefaultOptions`: apply the default appliers to a zero
`CommandOptions` and render. -/
def rsyncDefaultOptions : List String × List String :=
  (applyAll {} rsyncCommandDefaultOptions).Options

/-! ## `transfer.GeneratePassword` (`transfer/transfer.go`) -/

/-- The `letters` byte slice of `GeneratePassword`. -/
def lettersGo : List Char :=
  ['a', 'b', 'c', 'd', 'e', 'f', 'g', 'h', 'i', 'j', 'k', 'l', 'm',
   'n', 'o', 'p', 'q', 'r', 's', 't', 'u', 'v', 'w', 'x', 'y', 'z',
   'A', 'B', 'C', 'D', 'E', 'F', 'G', 'H', 'I', 'J', 'K', 'L', 'M',
   'N', 'O', 'P', 'Q', 'R', 'S', 'T', 'U', 'V', 'W', 'X', 'Y', 'Z']

theorem lettersGo_length : lettersGo.length = 52 := rfl

/-- Index into `lettersGo` with a `Fin 52` (the `rand.Int` draw is uniform
below `len(letters) = 52`). -/
def goLetter (k : Fin 52) : Char :=
  lettersGo.get ⟨k.val, by rw [lettersGo_length]; exact k.isLt⟩

/-- `transfer.GeneratePassword`, with the stream of random draws passed in
explicitly (`draws i` is the `i`-th `rand.Int` result; the reader is assumed
not to fail, which is the successful-call case of the claim):

```go
password := make([]byte, 24)
for i := 0; i < 24; i++ { ...; password = append(password, letters[num.Int64()]) }
return string(password), nil
```

`make([]byte, 24)` allocates 24 zero bytes, and the appends extend the slice
past them. -/
def GeneratePassword (draws : Nat → Fin 52) : String :=
  String.mk ((List.range 24).foldl (fun pw i => pw ++ [goLetter (draws i)])
    (List.replicate 24 (Char.ofNat 0)))

/-! ## A model of the backing object store

The library talks to a Kubernetes API server through a
`sigs.k8s.io/controller-runtime` client.  We model the store as a list of
typed objects plus a schedule of injected API-write failures (`failQueue`),
one entry consumed per write; an empty queue means writes succeed. -/

/-- The kinds of objects this library reconciles. -/
inductive ObjKind where
  | configMap
  | secret
  | pod
  | serviceAccount
  | role
  | roleBinding
  | endpointObj
  deriving DecidableEq, Repr

/-- Identity of a stored object. -/
structure ObjKey where
  kind : ObjKind
  ns : String
  name : String
  deriving DecidableEq, Repr

/-- `corev1.VolumeMount`. -/
structure VolumeMountM where
  name : String
  mountPath : String
  subPath : String := ""
  deriving DecidableEq, Repr

/-- `corev1.ContainerPort`. -/
structure PortM where
  name : String
  protocol : String
  containerPort : Int
  deriving DecidableEq, Repr

/-- `corev1.Container` (the fields this library sets). -/
structure ContainerM where
  name : String
  image : String := ""
  command : List String := []
  ports : List PortM := []
  volumeMounts : List VolumeMountM := []
  deriving DecidableEq, Repr

/-- `corev1.VolumeSource` variants used by this library. -/
inductive VolumeSrcM where
  | pvcClaim (claimName : String)
  | emptyDir (medium : String)
  | configMapVol (name : String)
  | secretVol (secretName : String) (defaultMode : Int) (items : List (String × String))
  deriving DecidableEq, Repr

/-- `corev1.Volume`. -/
structure VolumeM where
  name : String
  src : VolumeSrcM
  deriving DecidableEq, Repr

/-- `corev1.PodSecurityContext` (fields named by `transfer.PodOptions`). -/
structure PodSecCtxM where
  supplementalGroups : List Int := []
  fsGroup : Option Int := none
  deriving DecidableEq, Repr

/-- `corev1.SecurityContext` for containers (field used by `NewServer`). -/
structure ContainerSecCtxM where
  runAsUser : Option Int := none
  deriving DecidableEq, Repr

/-- `corev1.PodSpec` (the fields this library sets). -/
structure PodSpecM where
  containers : List ContainerM := []
  volumes : List VolumeM := []
  restartPolicy : String := ""
  serviceAccountName : String := ""
  nodeSelector : List (String × String) := []
  nodeName : String := ""
  securityContext : Option PodSecCtxM := none
  deriving DecidableEq, Repr

/-- `rbacv1.PolicyRule`. -/
structure PolicyRuleM where
  apiGroups : List String
  resources : List String
  resourceNames : List String
  verbs : List String
  deriving DecidableEq, Repr

/-- `rbacv1.RoleRef`. -/
structure RoleRefM where
  apiGroup : String
  kind : String
  name : String
  deriving DecidableEq, Repr

/-- `rbacv1.Subject`. -/
structure SubjectM where
  kind : String
  name : String
  deriving DecidableEq, Repr

/-- `corev1.ContainerStateTerminated` (exit code and finish time). -/
structure TerminatedM where
  exitCode : Int
  finishedAt : Nat
  deriving DecidableEq, Repr

/-- `corev1.ContainerStatus` (fields read by the status queries). -/
structure ContainerStatusM where
  name : String
  ready : Bool := false
  terminated : Option TerminatedM := none
  deriving DecidableEq, Repr

/-- A stored object: metadata common to all kinds plus the per-kind payload
fields this library reads or writes.  `creationTsZero` is true only for an
object that has never been persisted (a fresh Go struct); the store stamps a
creation timestamp on create. -/
structure Obj where
  key : ObjKey
  labels : List (String × String) := []
  annotations : List (String × String) := []
  ownerRefs : List String := []
  data : List (String × String) := []
  spec : Option PodSpecM := none
  rules : List PolicyRuleM := []
  roleRef : Option RoleRefM := none
  subjects : List SubjectM := []
  containerStatuses : List ContainerStatusM := []
  creationTsZero : Bool := false
  deriving DecidableEq, Repr

/-- A fresh (never persisted) object for `k`, as built at a call site. -/
def freshObj (k : ObjKey) : Obj :=
  { key := k, creationTsZero := true }

/-- The store: objects plus the injected API-write failure schedule. -/
structure Store where
  objs : List Obj
  failQueue : List Bool := []
  deriving DecidableEq, Repr

/-- `c.Get`: the stored object with key `k`, if any. -/
def getObj (st : Store) (k : ObjKey) : Option Obj :=
  st.objs.find? (fun o => o.key == k)

/-- Replace the (first) object with `o.key`, or append `o`. -/
def putObjList : List Obj → Obj → List Obj
  | [], o => [o]
  | p :: rest, o => if p.key == o.key then o :: rest else p :: putObjList rest o

/-- Write `o` into the store. -/
def putObj (st : Store) (o : Obj) : Store :=
  { st with objs := putObjList st.objs o }

/-- Pop the next injected write outcome (`true` = this write fails). -/
def consumeFail (st : Store) : Bool × Store :=
  match st.failQueue with
  | [] => (false, st)
  | b :: rest => (b, { st with failQueue := rest })

/-- `controllerutil.CreateOrUpdate`: fetch by key; if absent, run the mutate
function on a fresh object and create it; if present, run the mutate
function and update only when it changed the object.  Returns the store
error, if any. -/
def createOrUpdate (st : Store) (k : ObjKey) (mutate : Obj → Obj) :
    GoResult Unit × Store :=
  match getObj st k with
  | none =>
    let o := mutate (freshObj k)
    let (fail, st') := consumeFail st
    if fail then (.err "create failed", st')
    else (.ok (), putObj st' { o with creationTsZero := false })
  | some o =>
    let o' := mutate o
    if o' == o then (.ok (), st)
    else
      let (fail, st') := consumeFail st
      if fail then (.err "update failed", st')
      else (.ok (), putObj st' o')

/-- `utils.UpdateWithLabel` from `internal/utils/labels.go`: get the object
(propagating a NotFound error), set `labels[key] = value`, and update it. -/
def UpdateWithLabel (st : Store) (k : ObjKey) (lkey lval : String) :
    GoResult Unit × Store :=
  match getObj st k with
  | none => (.errNotFound, st)
  | some o =>
    let (fail, st') := consumeFail st
    if fail then (.err "update failed", st')
    else (.ok (), putObj st' { o with labels := mapSet o.labels lkey lval })

/-- Chain `UpdateWithLabel` over a list of keys, stopping at the first
error. -/
def updateWithLabelSeq (st : Store) (keys : List ObjKey) (lkey lval : String) :
    GoResult Unit × Store :=
  match keys with
  | [] => (.ok (), st)
  | k :: rest =>
    match UpdateWithLabel st k lkey lval with
    | (.ok _, st') => updateWithLabelSeq st' rest lkey lval
    | (e, st') => (e, st')

/-- Does `labels` carry every selector pair (`ctrlclient.MatchingLabels`)? -/
def matchLabels (sel labels : List (String × String)) : Bool :=
  sel.all (fun kv => mapGet? labels kv.1 == some kv.2)

/-! ## Rsync constants (`transfer/rsync`) -/

def RsyncContainer : String := "rsync"

def rsyncImage : String := "quay.io/konveyor/rsync-transfer:latest"

def rsyncConfig : String := "backube-rsync-config"

/-- The rsync secret name stem (source constant name: the rsync secret
name "backube-rsync" prefixed to the identity suffix). -/
def rsyncSecretStem : String := "backube-rsync"

def rsyncServiceAccount : String := "backube-rsync-sa"

def rsyncRole : String := "backube-rsync-role"

def rsyncRoleBinding : String := "backube-rsync-rolebinding"

def rsyncdLogDir : String := "rsyncd-logs"

def rsyncdLogDirPath : String := "/var/log/rsyncd/"

def rsyncCommunicationMountPath : String := "/usr/share/rsync"

def DefaultSCCName : String := "pvc-transfer-mover"

/-! ## Transport and endpoint handles

The `transport.Transport` interface is implemented only by the stunnel
client/server in this repository; a transport handle carries the identity
key used by the stunnel object names, the two ports, and the container and
volume fragments spliced into the transfer pod. -/

/-- A transport handle (stunnel server or client side). -/
structure TransportM where
  ttype : String := "stunnel"
  nsName : String × String
  listenPort : Int := 0
  connectPort : Int := 0
  containers : List ContainerM := []
  volumes : List VolumeM := []
  hostname : String := "localhost"
  deriving DecidableEq, Repr

/-- Modelled from the spec: the Endpoint implementations (cluster-internal
service, load balancer, ingress, edge route) are external collaborators
(§1, §6) whose code is not part of this core; per §4.5/§6 their
`MarkForCleanup` applies the caller's label/value pair to every
endpoint-owned object and deletes nothing.  An endpoint handle is modelled
by the keys of its owned objects plus its advertised address. -/
structure EndpointM where
  objKeys : List ObjKey := []
  backendPort : Int := 0
  hostname : String := ""
  deriving DecidableEq, Repr

/-- Modelled from the spec: the endpoint's `MarkForCleanup` labels each of
its owned objects, propagating store errors. -/
def endpointMarkForCleanup (e : EndpointM) (st : Store) (lkey lval : String) :
    GoResult Unit × Store :=
  updateWithLabelSeq st e.objKeys lkey lval

/-! ## Stunnel naming and cleanup (`transport/stunnel/stunnel.go`) -/

def stunnelConfig : String := "stunnel-config"

def stunnelSecret : String := "stunnel-creds"

/-- `getResourceName`: `"<stem>-<component>-<name>"`, truncated to 62. -/
def getResourceName (objName component stem : String) : String :=
  let resourceName := stem ++ "-" ++ component ++ "-" ++ objName
  if resourceName.length > 62 then goTake resourceName 62 else resourceName

/-- `stunnel.markForCleanup`: label the stunnel config map (hard failure)
and the certs secret (a NotFound error is tolerated). -/
def stunnelMarkForCleanup (nsName : String × String) (component : String)
    (st : Store) (lkey lval : String) : GoResult Unit × Store :=
  match UpdateWithLabel st ⟨.configMap, nsName.1, getResourceName nsName.2 component stunnelConfig⟩ lkey lval with
  | (.ok _, st1) =>
    match UpdateWithLabel st1 ⟨.secret, nsName.1, getResourceName nsName.2 "certs" stunnelSecret⟩ lkey lval with
    | (.ok _, st2) => (.ok (), st2)
    | (.errNotFound, st2) => (.ok (), st2)
    | (e, st2) => (e, st2)
  | (e, st1) => (e, st1)

/-- The stunnel server transport's `MarkForCleanup` (component `"server"`). -/
def stunnelServerMarkForCleanup (t : TransportM) (st : Store) (lkey lval : String) :
    GoResult Unit × Store :=
  stunnelMarkForCleanup t.nsName "server" st lkey lval

/-! ## Pod options (`transfer.PodOptions`)

The `PodOptions` struct in `transfer/transfer.go` carries the security
contexts, node placement and resources; the rsync client additionally reads
`ServiceAccountName` and `CommandOptions` from it (the version of the
struct declaring those two fields is not under `src/`; they are modelled
from their uses). -/
structure PodOptionsM where
  sccName : Option String := none
  podSecurityContext : PodSecCtxM := {}
  containerSecurityContext : ContainerSecCtxM := {}
  nodeName : String := ""
  nodeSelector : List (String × String) := []
  serviceAccountName : String := ""
  commandOptions : Option CommandOptions := none
  deriving DecidableEq, Repr

/-- `applyPodOptions` (`transfer/rsync/rsync.go`): sets the pod-level
fields.  Its container loop is `for _, c := range podSpec.Containers`,
which iterates over copies, so the per-container writes have no effect on
the pod spec; the model reproduces that (containers unchanged). -/
def applyPodOptions (spec : PodSpecM) (options : PodOptionsM) : PodSpecM :=
  { spec with
    nodeSelector := options.nodeSelector,
    nodeName := options.nodeName,
    securityContext := some options.podSecurityContext }

/-! ## Rsync server (`transfer/rsync/server.go`) -/

/-- The `server` struct. -/
structure ServerM where
  username : String
  password : String
  pvcList : List PVCm
  transportServer : TransportM
  endpoint : EndpointM
  listenPort : Int
  nameSuffix : String := ""
  labels : List (String × String) := []
  ownerRefs : List String := []
  options : PodOptionsM := {}
  ns : String := ""
  deriving DecidableEq, Repr

/-- The rendered `rsyncd.conf` (the `rsyncServerConfTemplate` text/template
instantiated at `Username`, `PVCList`, `AllowLocalhostOnly`; `{{-` trims the
preceding newline). -/
def renderRsyncdConf (username : String) (pvcs : List PVCm) (allowLocalhostOnly : Bool) : String :=
  "syslog facility = local7\nread only = no\nlist = yes\nlog file = /dev/stdout\nmax verbosity = 4\nauth users = " ++ username ++
    (if allowLocalhostOnly then "\nhosts allow = ::1, 127.0.0.1, localhost"
     else "\nhosts allow = *.*.*.*, *") ++
    "\nuid = root\ngid = root\n" ++
    String.join (pvcs.map (fun p =>
      "\n[" ++ labelSafeName p ++ "]\n    comment = archive for " ++ p.ns ++ "/" ++ p.name ++
      "\n    path = /mnt/" ++ p.ns ++ "/" ++ labelSafeName p ++
      "\n    use chroot = no\n    munge symlinks = no\n    list = yes\n    read only = false\n    auth users = " ++ username ++
      "\n    secrets file = /etc/rsync-secret/rsyncd.secrets\n")) ++
    "\n"

/-- `server.reconcileConfigMap`. -/
def serverReconcileConfigMap (s : ServerM) (st : Store) (namespace_ : String) :
    GoResult Unit × Store :=
  let allowLocalhostOnly := s.transportServer.ttype == "stunnel"
  let conf := renderRsyncdConf s.username (inNamespace s.pvcList namespace_) allowLocalhostOnly
  createOrUpdate st ⟨.configMap, namespace_, rsyncConfig ++ "-" ++ s.nameSuffix⟩
    (fun o => { o with labels := s.labels, ownerRefs := s.ownerRefs,
                       data := [("rsyncd.conf", conf)] })

/-- `server.reconcileSecret`: empty password is a caller error. -/
def serverReconcileSecret (s : ServerM) (st : Store) (namespace_ : String) :
    GoResult Unit × Store :=
  if s.password == "" then (.err "password is empty", st)
  else
    createOrUpdate st ⟨.secret, namespace_, rsyncSecretStem ++ "-" ++ s.nameSuffix⟩
      (fun o => { o with labels := s.labels, ownerRefs := s.ownerRefs,
                         data := [("credentials", s.username ++ ":" ++ s.password)] })

/-- `server.getConfigVolumeMounts`. -/
def serverConfigVolumeMounts (s : ServerM) : List VolumeMountM :=
  [{ name := rsyncConfig ++ "-" ++ s.nameSuffix, mountPath := "/etc/rsyncd.conf", subPath := "rsyncd.conf" },
   { name := rsyncSecretStem ++ "-" ++ s.nameSuffix, mountPath := "/etc/rsync-secret" },
   { name := rsyncdLogDir, mountPath := rsyncdLogDirPath }]

/-- `server.getPVCVolumeMounts`. -/
def serverPVCVolumeMounts (s : ServerM) (namespace_ : String) : List VolumeMountM :=
  (inNamespace s.pvcList namespace_).map (fun p =>
    { name := labelSafeName p, mountPath := "/mnt/" ++ p.ns ++ "/" ++ labelSafeName p })

/-- The rsync daemon supervision script of `server.getContainers`. -/
def serverScript (listenPort : Int) : String :=
  "/usr/bin/rsync --daemon --no-detach --port=" ++ toString listenPort ++ " -vvv | tee " ++
    rsyncdLogDirPath ++ "rsync.log &\nwhile true; do\n\tgrep \"_exit_cleanup\" " ++
    rsyncdLogDirPath ++ "rsync.log >> /dev/null\n\tif [[ $? -eq 0 ]]\n\tthen\n\t\texit 0; \n\tfi\n\tsleep 1;\ndone"

/-- `server.getContainers`. -/
def serverContainers (s : ServerM) (volumeMounts : List VolumeMountM) : List ContainerM :=
  [{ name := RsyncContainer, image := rsyncImage,
     command := ["/bin/bash", "-c", serverScript s.listenPort],
     ports := [{ name := "rsyncd", protocol := "TCP", containerPort := s.listenPort }],
     volumeMounts := volumeMounts }]

/-- `server.getConfigVolumes` (mode `0600`). -/
def serverConfigVolumes (s : ServerM) : List VolumeM :=
  [{ name := rsyncConfig ++ "-" ++ s.nameSuffix, src := .configMapVol (rsyncConfig ++ "-" ++ s.nameSuffix) },
   { name := rsyncSecretStem ++ "-" ++ s.nameSuffix,
     src := .secretVol (rsyncSecretStem ++ "-" ++ s.nameSuffix) 384 [("credentials", "rsyncd.secrets")] },
   { name := rsyncdLogDir, src := .emptyDir "" }]

/-- `server.getPVCVolumes`. -/
def serverPVCVolumes (s : ServerM) (namespace_ : String) : List VolumeM :=
  (inNamespace s.pvcList namespace_).map (fun p =>
    { name := labelSafeName p, src := .pvcClaim p.name })

/-- The pod spec built by `server.reconcilePod`. -/
def serverDesiredPodSpec (s : ServerM) (namespace_ : String) : PodSpecM :=
  let volumeMounts := serverConfigVolumeMounts s ++ serverPVCVolumeMounts s namespace_
  let containers := serverContainers s volumeMounts ++ s.transportServer.containers
  let volumes := serverPVCVolumes s namespace_ ++ serverConfigVolumes s ++ s.transportServer.volumes
  applyPodOptions
    { containers := containers, volumes := volumes, restartPolicy := "Never",
      serviceAccountName := rsyncServiceAccount ++ "-" ++ s.nameSuffix }
    s.options

/-- `server.reconcilePod`: note that the mutate function assigns
`server.Spec = podSpec` unconditionally, also for a pod that already
exists. -/
def serverReconcilePod (s : ServerM) (st : Store) (namespace_ : String) :
    GoResult Unit × Store :=
  let podSpec := serverDesiredPodSpec s namespace_
  createOrUpdate st ⟨.pod, namespace_, "rsync-server-" ++ s.nameSuffix⟩
    (fun o => { o with labels := s.labels, ownerRefs := s.ownerRefs, spec := some podSpec })

/-- `server.reconcileServiceAccount`. -/
def serverReconcileServiceAccount (s : ServerM) (st : Store) (namespace_ : String) :
    GoResult Unit × Store :=
  createOrUpdate st ⟨.serviceAccount, namespace_, rsyncServiceAccount ++ "-" ++ s.nameSuffix⟩
    (fun o => { o with labels := s.labels, ownerRefs := s.ownerRefs })

/-- `server.reconcileRole`. -/
def serverReconcileRole (s : ServerM) (st : Store) (namespace_ : String) :
    GoResult Unit × Store :=
  createOrUpdate st ⟨.role, namespace_, rsyncRole ++ "-" ++ s.nameSuffix⟩
    (fun o => { o with labels := s.labels, ownerRefs := s.ownerRefs,
                       rules := [{ apiGroups := ["security.openshift.io"],
                                   resources := ["securitycontextconstraints"],
                                   resourceNames := [DefaultSCCName],
                                   verbs := ["use"] }] })

/-- `server.reconcileRoleBinding`. -/
def serverReconcileRoleBinding (s : ServerM) (st : Store) (namespace_ : String) :
    GoResult Unit × Store :=
  createOrUpdate st ⟨.roleBinding, namespace_, rsyncRoleBinding ++ "-" ++ s.nameSuffix⟩
    (fun o => { o with labels := s.labels, ownerRefs := s.ownerRefs,
                       roleRef := some { apiGroup := "rbac.authorization.k8s.io", kind := "Role",
                                         name := rsyncRole ++ "-" ++ s.nameSuffix },
                       subjects := [{ kind := "ServiceAccount",
                                      name := rsyncServiceAccount ++ "-" ++ s.nameSuffix }] })

/-- Go string slicing `s[:n]`: a run-time panic when `n > len(s)`. -/
def goSliceTo (s : String) (n : Nat) : GoResult String :=
  if n > s.length then .crash "slice bounds out of range" else .ok (goTake s n)

/-- Run the server reconcilers in order, stopping at the first error (the
constructor then returns `nil, err`). -/
def serverRunReconcilers (s : ServerM) (st : Store) :
    GoResult Unit × Store :=
  match serverReconcileConfigMap s st s.ns with
  | (.ok _, st1) =>
    match serverReconcileSecret s st1 s.ns with
    | (.ok _, st2) =>
      match serverReconcileServiceAccount s st2 s.ns with
      | (.ok _, st3) =>
        match serverReconcileRole s st3 s.ns with
        | (.ok _, st4) =>
          match serverReconcileRoleBinding s st4 s.ns with
          | (.ok _, st5) => serverReconcilePod s st5 s.ns
          | r => r
        | r => r
      | r => r
    | r => r
  | r => r

/-- The body of `rsync.NewServer` after the RunAsUser guard: build the
`server` struct, compute the name suffix by slicing the namespace hash
(which precedes the cross-namespace and empty-list checks), run the two
validation checks, then the reconcilers. -/
def newServerBody (pvcs : List PVCm) (t : TransportM) (e : EndpointM)
    (labels : List (String × String)) (ownerRefs : List String)
    (password : String) (podOptions : PodOptionsM) (st : Store) :
    GoResult ServerM × Store :=
  let r : ServerM :=
    { username := "root", password := password, pvcList := pvcs,
      transportServer := t, endpoint := e, listenPort := t.connectPort,
      labels := labels, ownerRefs := ownerRefs, options := podOptions }
  let namespaces := pvcNamespaces pvcs
  let namespace_ := namespaces.headD ""
  match goSliceTo (mapGet (NamespaceHashForNames pvcs) namespace_) 10 with
  | .ok suffix =>
    let r := { r with nameSuffix := suffix }
    if namespaces.any (fun n => n != namespace_) then
      (.err "PVC list provided has pvcs in different namespaces which is not supported", st)
    else if namespace_ == "" then
      (.err "ether PVC list is empty or namespace is not specified", st)
    else
      let r := { r with ns := namespace_ }
      match serverRunReconcilers r st with
      | (.ok _, st') => (.ok r, st')
      | (.err m, st') => (.err m, st')
      | (.errNotFound, st') => (.err "not found", st')
      | (.crash m, st') => (.crash m, st')
  | .crash m => (.crash m, st)
  | .err m => (.err m, st)
  | .errNotFound => (.errNotFound, st)

/-- `rsync.NewServer`: the RunAsUser guard, then the constructor body. -/
def NewServer (pvcs : List PVCm) (t : TransportM) (e : EndpointM)
    (labels : List (String × String)) (ownerRefs : List String)
    (password : String) (podOptions : PodOptionsM) (st : Store) :
    GoResult ServerM × Store :=
  match podOptions.containerSecurityContext.runAsUser with
  | some u =>
    if u != 0 then (.err "running as non-root user is not supported yet", st)
    else newServerBody pvcs t e labels ownerRefs password podOptions st
  | none => newServerBody pvcs t e labels ownerRefs password podOptions st

/-- `server.MarkForCleanup`: endpoint, transport, then the six rsync-owned
objects, each via `UpdateWithLabel`, stopping at the first error. -/
def serverMarkForCleanup (s : ServerM) (st : Store) (lkey lval : String) :
    GoResult Unit × Store :=
  match endpointMarkForCleanup s.endpoint st lkey lval with
  | (.ok _, st1) =>
    match stunnelServerMarkForCleanup s.transportServer st1 lkey lval with
    | (.ok _, st2) =>
      updateWithLabelSeq st2
        [⟨.configMap, s.ns, rsyncConfig ++ "-" ++ s.nameSuffix⟩,
         ⟨.secret, s.ns, rsyncSecretStem ++ "-" ++ s.nameSuffix⟩,
         ⟨.pod, s.ns, "rsync-server-" ++ s.nameSuffix⟩,
         ⟨.serviceAccount, s.ns, rsyncServiceAccount ++ "-" ++ s.nameSuffix⟩,
         ⟨.role, s.ns, rsyncRole ++ "-" ++ s.nameSuffix⟩,
         ⟨.roleBinding, s.ns, rsyncRoleBinding ++ "-" ++ s.nameSuffix⟩]
        lkey lval
    | (e, st2) => (e, st2)
  | (e, st1) => (e, st1)

/-! ## Rsync client (`transfer/rsync/client.go`) -/

/-- `stunnel.Container`, the tunnel sidecar container name. -/
def stunnelContainerName : String := "stunnel"

/-- The `client` struct. -/
structure ClientM where
  username : String := "root"
  pvcList : List PVCm
  transportClient : TransportM
  endpoint : EndpointM := {}
  nameSuffix : String := ""
  labels : List (String × String) := []
  ownerRefs : List String := []
  options : PodOptionsM := {}
  ns : String := ""
  deriving DecidableEq, Repr

/-- `transfer.Running`. -/
structure RunningM where
  startedAt : Option Nat := none
  deriving DecidableEq, Repr

/-- `transfer.Completed`. -/
structure CompletedM where
  successful : Bool
  failure : Bool
  finishedAt : Option Nat := none
  deriving DecidableEq, Repr

/-- `transfer.Status`. -/
structure StatusM where
  running : Option RunningM := none
  completed : Option CompletedM := none
  deriving DecidableEq, Repr

/-- The inner container scan of `client.Status`: the first container status
named `"rsync"` with a non-nil terminated state. -/
def findRsyncTerminated (statuses : List ContainerStatusM) : Option TerminatedM :=
  match statuses with
  | [] => none
  | cs :: rest =>
    if cs.name == RsyncContainer then
      match cs.terminated with
      | some t => some t
      | none => findRsyncTerminated rest
    else findRsyncTerminated rest

/-- Scan the listed pods as `client.Status` does: the first pod with a
terminated rsync container decides the status; otherwise the query errors. -/
def statusScan (pods : List Obj) : GoResult StatusM :=
  match pods with
  | [] => .err "unable to find the appropriate container to inspect status for rsync transfer"
  | p :: rest =>
    if p.containerStatuses.length > 0 then
      match findRsyncTerminated p.containerStatuses with
      | some t =>
        if t.exitCode == 0 then
          .ok { completed := some { successful := true, failure := false,
                                    finishedAt := some t.finishedAt } }
        else
          .ok { running := none,
                completed := some { successful := false, failure := true,
                                    finishedAt := some t.finishedAt } }
      | none => statusScan rest
    else statusScan rest

/-- `client.Status`: list pods matching the client's labels and scan their
container statuses; no logs are read. -/
def clientStatus (tc : ClientM) (st : Store) : GoResult StatusM :=
  statusScan (st.objs.filter (fun o => o.key.kind == .pod && matchLabels tc.labels o.labels))

/-- The tunnel-sidecar supervision script installed by
`customizeTransportClientContainers`. -/
def stunnelClientScript : String :=
  "/bin/stunnel /etc/stunnel/stunnel.conf\nwhile true\ndo test -f " ++
    rsyncCommunicationMountPath ++
    "/rsync-client-container-done\nif [ $? -eq 0 ]\nthen\nbreak\nfi\ndone\nexit 0"

/-- Replace the last container named `stunnel` (the Go loop keeps the last
match) with its customized form. -/
def customizeStunnelContainer (c : ContainerM) : ContainerM :=
  { c with command := ["/bin/bash", "-c", stunnelClientScript],
           volumeMounts := c.volumeMounts ++
             [{ name := "rsync-communication", mountPath := rsyncCommunicationMountPath }] }

/-- Replace the first matching container in a list. -/
def replaceFirstStunnel : List ContainerM → List ContainerM
  | [] => []
  | c :: rest =>
    if c.name == stunnelContainerName then customizeStunnelContainer c :: rest
    else c :: replaceFirstStunnel rest

/-- `customizeTransportClientContainers`: for a stunnel transport, patch the
(last) stunnel container in place — the transport's container slice is
mutated, so the customization accumulates across calls; a missing stunnel
container is an error.  Non-stunnel transports are left alone. -/
def customizeTransportClientContainers (ttype : String) (containers : List ContainerM) :
    GoResult (List ContainerM) :=
  if ttype == "stunnel" then
    if containers.any (fun c => c.name == stunnelContainerName) then
      .ok ((replaceFirstStunnel containers.reverse).reverse)
    else
      .err ("couldnt find container named " ++ stunnelContainerName ++ " in rsync client pod")
  else .ok containers

/-- The client rsync invocation of `client.getCommand`:
`/usr/bin/rsync <options> /mnt/<ns>/<labelSafeName>/ rsync://root@<host>/<labelSafeName>/ --port <port>`. -/
def clientRsyncCommand (tc : ClientM) (rsyncOptions : List String) (p : PVCm) : List String :=
  ["/usr/bin/rsync"] ++ rsyncOptions ++
    ["/mnt/" ++ p.ns ++ "/" ++ labelSafeName p ++ "/"] ++
    ["rsync://" ++ tc.username ++ "@" ++ tc.transportClient.hostname ++ "/" ++
       labelSafeName p ++ "/ --port " ++ toString tc.transportClient.listenPort]

/-- The sentinel sync of `client.getCommand` (step 4 of the startup
script). -/
def clientTerminationCommand (tc : ClientM) : String :=
  "/usr/bin/rsync /mnt/termination/done rsync://" ++ tc.username ++ "@" ++
    tc.transportClient.hostname ++ "/termination/ --port " ++
    toString tc.transportClient.listenPort

/-- The bash startup script of `client.getCommand` (the big format string;
literal braces are written with their escapes). -/
def clientScript (tc : ClientM) (rsyncOptions : List String) (p : PVCm) : String :=
  "trap \"touch " ++ rsyncCommunicationMountPath ++
  "/rsync-client-container-done\" EXIT SIGINT SIGTERM;\ntimeout=120;\nSECONDS=0;\nSTART_TIME=$SECONDS\ntouch /mnt/termination/done\nwhile [ $SECONDS -lt $timeout ]\ndo\n\tnc -z localhost " ++
  toString tc.transportClient.listenPort ++
  "\n\trc=$?\n\tif [ $rc -eq 0 ]\n\tthen \n\t\tMAX_RETRIES=5\n\t\tRETRY=0\n\t\tDELAY=2\n\t\tFACTOR=2\n\t\trc=1\n\t\twhile [[ $\x7brc\x7d -ne 0 && $\x7bRETRY\x7d -lt $\x7bMAX_RETRIES\x7d ]]\n\t\tdo \n\t\t\tRETRY=$((RETRY+1))\n\t\t\t" ++
  String.intercalate " " (clientRsyncCommand tc rsyncOptions p) ++
  "\n\t\t\trc=$?\n\t\t\tif [[ $\x7brc\x7d -ne 0 ]]; then\n\t\t\t\techo \"Synchronization failed. Retrying in $\x7bDELAY\x7d seconds. Retry $\x7bRETRY\x7d/$\x7bMAX_RETRIES\x7d.\"\n\t\t\t\tif [[ $\x7bRETRY\x7d -lt $\x7bMAX_RETRIES\x7d ]]; then\n\t\t\t\t\tsleep $\x7bDELAY\x7d\n\t\t\t\t\tDELAY=$((DELAY * FACTOR ))\n\t\t\t\tfi\n\t\t\tfi\n\t\tdone \n\t\tbreak\n\tfi\ndone\necho \"Rsync completed in $(( SECONDS - START_TIME ))s\"\nsync\nif [[ $rc -eq 0 ]]; then\n    echo \"Synchronization completed successfully. Notifying destination...\"\n    " ++
  clientTerminationCommand tc ++
  "\nelse\n    echo \"Synchronization failed. rsync returned: $rc\"\n    exit $rc\nfi\n"

/-- `client.getCommand`: run the startup script under bash. -/
def clientGetCommand (tc : ClientM) (rsyncOptions : List String) (p : PVCm) : List String :=
  ["/bin/bash", "-c", clientScript tc rsyncOptions p]

/-- `getTerminationVolumeMounts`. -/
def getTerminationVolumeMounts : List VolumeMountM :=
  [{ name := "termination", mountPath := "/mnt/termination" }]

/-- `getTerminationVolumes`. -/
def getTerminationVolumes : List VolumeM :=
  [{ name := "termination", src := .emptyDir "" }]

/-- The desired pod spec one loop iteration of `client.reconcilePod`
builds, given the (already customized) transport containers. -/
def clientDesiredPodSpec (tc : ClientM) (rsyncOptions : List String)
    (transportContainers : List ContainerM) (p : PVCm) : PodSpecM :=
  let volumeMounts :=
    [{ name := "mnt", mountPath := "/mnt/" ++ p.ns ++ "/" ++ labelSafeName p : VolumeMountM },
     { name := "rsync-communication", mountPath := rsyncCommunicationMountPath }] ++
    getTerminationVolumeMounts
  let containers :=
    [{ name := RsyncContainer, command := clientGetCommand tc rsyncOptions p,
       volumeMounts := volumeMounts : ContainerM }] ++ transportContainers
  let volumes :=
    [{ name := "mnt", src := .pvcClaim p.name : VolumeM },
     { name := "rsync-communication", src := .emptyDir "Memory" }] ++
    tc.transportClient.volumes ++ getTerminationVolumes
  applyPodOptions
    { containers := containers, volumes := volumes, restartPolicy := "Never",
      serviceAccountName := tc.options.serviceAccountName }
    tc.options

/-- Result of one `client.reconcilePod` call: the returned error value, the
per-iteration `errs` slice as the source accumulates it (nil entries
included; its non-nil part is the aggregate that is logged), and the final
store. -/
structure ReconcilePodOut where
  result : GoResult Unit
  errs : List (Option String)
  st : Store
  deriving DecidableEq, Repr

/-- One error entry of the `errs` slice. -/
def errEntry : GoResult Unit → Option String
  | .ok _ => none
  | .err m => some m
  | .errNotFound => some "not found"
  | .crash m => some m

/-- The per-PVC loop of `client.reconcilePod`: customize the transport
containers (an error here returns immediately), build the pod spec, and
create-or-update the single client pod; the create-or-update error of each
iteration is appended to `errs` and the loop continues. -/
def clientPodLoop (tc : ClientM) (rsyncOptions : List String) :
    List PVCm → List ContainerM → Store → List (Option String) → ReconcilePodOut
  | [], _, st, errs => ⟨.ok (), errs, st⟩
  | p :: rest, tcont, st, errs =>
    match customizeTransportClientContainers tc.transportClient.ttype tcont with
    | .ok tcont' =>
      let podSpec := clientDesiredPodSpec tc rsyncOptions tcont' p
      let (res, st') := createOrUpdate st ⟨.pod, p.ns, "rsync-client-" ++ tc.nameSuffix⟩
        (fun o =>
          let o := { o with labels := tc.labels,
                            annotations := [("pvc", p.name)],
                            ownerRefs := tc.ownerRefs }
          if o.creationTsZero then { o with spec := some podSpec } else o)
      clientPodLoop tc rsyncOptions rest tcont' st' (errs ++ [errEntry res])
    | .err m => ⟨.err m, errs, st⟩
    | .errNotFound => ⟨.errNotFound, errs, st⟩
    | .crash m => ⟨.crash m, errs, st⟩

/-- `client.reconcilePod`: resolve the rsync options (defaults, overridden
by caller-supplied `CommandOptions`), loop over the namespace's PVCs, then
aggregate the collected errors — the aggregate is only logged, and the
function returns nil. -/
def clientReconcilePod (tc : ClientM) (st : Store) (namespace_ : String) : ReconcilePodOut :=
  let d := rsyncDefaultOptions
  if !d.2.isEmpty then ⟨.err (String.intercalate ", " d.2), [], st⟩
  else
    match tc.options.commandOptions with
    | some co =>
      let r := co.Options
      if !r.2.isEmpty then ⟨.err (String.intercalate ", " r.2), [], st⟩
      else clientPodLoop tc r.1 (inNamespace tc.pvcList namespace_)
        tc.transportClient.containers st []
    | none =>
      clientPodLoop tc d.1 (inNamespace tc.pvcList namespace_)
        tc.transportClient.containers st []

/-- `rsync.NewClient`: the namespace checks precede the name-suffix slice,
which precedes the reconcilers. -/
def NewClient (pvcs : List PVCm) (t : TransportM) (nameSuffix0 : String)
    (labels : List (String × String)) (ownerRefs : List String)
    (podOptions : PodOptionsM) (st : Store) : GoResult ClientM × Store :=
  let tc : ClientM :=
    { username := "root", pvcList := pvcs, transportClient := t,
      nameSuffix := nameSuffix0, labels := labels, ownerRefs := ownerRefs,
      options := podOptions }
  let namespaces := pvcNamespaces pvcs
  let namespace_ := namespaces.headD ""
  if namespaces.any (fun n => n != namespace_) then
    (.err "PVC list provided has pvcs in different namespaces which is not supported", st)
  else if namespace_ == "" then
    (.err "ether PVC list is empty or namespace is not specified", st)
  else
    match goSliceTo (mapGet (NamespaceHashForNames pvcs) namespace_) 10 with
    | .ok suffix =>
      let tc := { tc with ns := namespace_, nameSuffix := suffix }
      let out := clientReconcilePod tc st tc.ns
      match out.result with
      | .ok _ => (.ok tc, out.st)
      | .err m => (.err m, out.st)
      | .errNotFound => (.errNotFound, out.st)
      | .crash m => (.crash m, out.st)
    | .crash m => (.crash m, st)
    | .err m => (.err m, st)
    | .errNotFound => (.errNotFound, st)

/-! ## Stunnel credentials (`transport/stunnel/stunnel.go`) -/

def CredentialsTypePSK : String := "PSK"

def CredentialsTypeTLS : String := "TLS"

/-- `transport.Credentials`: a credential type plus an optional secret
reference (`SecretRef.Name == ""` means "use the default name"). -/
structure CredentialsM where
  ctype : String := ""
  secretRef : String × String := ("", "")
  deriving DecidableEq, Repr

/-- `transport.Options` (the fields `reconcileCredentialSecret` reads). -/
structure TransportOptionsM where
  labels : List (String × String) := []
  owners : List String := []
  credentials : Option CredentialsM := none
  deriving DecidableEq, Repr

/-- A generated certificate bundle (`certs.CertificateBundle`); the
generation itself (`certs.New`) is RSA/x509 and is passed in as a value. -/
structure CertBundleM where
  caCrt : String
  caKey : String
  serverCrt : String
  serverKey : String
  clientCrt : String
  clientKey : String
  deriving DecidableEq, Repr

/-- `isPSKSecretValid`: fetch the secret (NotFound is "invalid", not an
error) and require the `"key"` data field. -/
def isPSKSecretValid (st : Store) (secretRef : String × String) : GoResult Bool :=
  match getObj st ⟨.secret, secretRef.1, secretRef.2⟩ with
  | none => .ok false
  | some secret =>
    match mapGet? secret.data "key" with
    | none => .ok false
    | some _ => .ok true

/-- `isTLSSecretValid`: require the five TLS fields, then verify the client
and server certificates against the bundled CA.  Certificate-chain
verification (`certs.VerifyCertificate`) is x509 and is passed in as a
predicate. -/
def isTLSSecretValid (verify : String → String → GoResult Bool) (st : Store)
    (secretRef : String × String) : GoResult Bool :=
  match getObj st ⟨.secret, secretRef.1, secretRef.2⟩ with
  | none => .ok false
  | some secret =>
    match mapGet? secret.data "client.key", mapGet? secret.data "server.key",
          mapGet? secret.data "client.crt", mapGet? secret.data "server.crt",
          mapGet? secret.data "ca.crt" with
    | some _, some _, some clientCrt, some serverCrt, some ca =>
      (match verify ca clientCrt with
       | .ok true => verify ca serverCrt
       | r => r)
    | _, _, _, _, _ => .ok false

/-- `reconcileTLSSecret`: create-or-update the TLS bundle secret with all
six bundle fields. -/
def reconcileTLSSecret (st : Store) (secretRef : String × String)
    (options : TransportOptionsM) (crtBundle : CertBundleM) : GoResult Unit × Store :=
  createOrUpdate st ⟨.secret, secretRef.1, secretRef.2⟩
    (fun o => { o with labels := options.labels, ownerRefs := options.owners,
                       data := [("server.crt", crtBundle.serverCrt),
                                ("server.key", crtBundle.serverKey),
                                ("client.crt", crtBundle.clientCrt),
                                ("client.key", crtBundle.clientKey),
                                ("ca.crt", crtBundle.caCrt),
                                ("ca.key", crtBundle.caKey)] })

/-- `reconcileCredentialSecret`: resolve the credential type (default TLS)
and secret reference (default `stunnel-creds-certs-<name>`), validate, and
when invalid generate a replacement — but generation is implemented only
for TLS; for any other type, PSK included, it returns an error and writes
nothing.  `newBundle` is the (possibly failing) `certs.New()` outcome. -/
def reconcileCredentialSecret (verify : String → String → GoResult Bool)
    (newBundle : GoResult CertBundleM) (tNsName : String × String)
    (o : TransportOptionsM) (st : Store) : GoResult Unit × Store :=
  let credType :=
    match o.credentials with
    | some c => if c.ctype != "" then c.ctype else CredentialsTypeTLS
    | none => CredentialsTypeTLS
  let secretRef :=
    match o.credentials with
    | some c =>
      if c.secretRef.2 != "" then c.secretRef
      else (tNsName.1, getResourceName tNsName.2 "certs" stunnelSecret)
    | none => (tNsName.1, getResourceName tNsName.2 "certs" stunnelSecret)
  let validRes :=
    if credType == CredentialsTypePSK then isPSKSecretValid st secretRef
    else if credType == CredentialsTypeTLS then isTLSSecretValid verify st secretRef
    else .err ("unsupported credentials type " ++ credType)
  match validRes with
  | .ok true => (.ok (), st)
  | .ok false =>
    if credType == CredentialsTypeTLS then
      match newBundle with
      | .ok crtBundle => reconcileTLSSecret st secretRef o crtBundle
      | .err m => (.err m, st)
      | .errNotFound => (.errNotFound, st)
      | .crash m => (.crash m, st)
    else (.err ("cannot create credentials of type " ++ credType), st)
  | .err m => (.err m, st)
  | .errNotFound => (.errNotFound, st)
  | .crash m => (.crash m, st)

/-! ## Statement-level notions for the cleanup frame property -/

/-- Set exactly the label `lkey := lval` on an object, leaving every other
field and every other label untouched. -/
def labelObj (o : Obj) (lkey lval : String) : Obj :=
  { o with labels := mapSet o.labels lkey lval }

/-- Frame relation of a mark-for-cleanup pass from `st` to `st'`: exactly
the same objects exist (nothing deleted, nothing created), and each object
is either untouched or has had just the label `lkey := lval` applied. -/
def cleanupFrame (lkey lval : String) (st st' : Store) : Prop :=
  ∀ k : ObjKey,
    (getObj st k = none ∧ getObj st' k = none) ∨
    (∃ o, getObj st k = some o ∧
      (getObj st' k = some o ∨ getObj st' k = some (labelObj o lkey lval)))

/-- The object under `k` exists and carries the label `lkey = lval`. -/
def hasLabelVal (st : Store) (k : ObjKey) (lkey lval : String) : Prop :=
  ∃ o, getObj st k = some o ∧ mapGet? o.labels lkey = some lval

/-- The keys of every object owned by an rsync server handle: the
endpoint's objects, the transport's config map and credential secret, the
rsync config map, the rsync secret, the rsync-server pod, the service
account, the role and the role binding. -/
def serverOwnedKeys (s : ServerM) : List ObjKey :=
  s.endpoint.objKeys ++
    [⟨.configMap, s.transportServer.nsName.1,
       getResourceName s.transportServer.nsName.2 "server" stunnelConfig⟩,
     ⟨.secret, s.transportServer.nsName.1,
       getResourceName s.transportServer.nsName.2 "certs" stunnelSecret⟩,
     ⟨.configMap, s.ns, rsyncConfig ++ "-" ++ s.nameSuffix⟩,
     ⟨.secret, s.ns, rsyncSecretStem ++ "-" ++ s.nameSuffix⟩,
     ⟨.pod, s.ns, "rsync-server-" ++ s.nameSuffix⟩,
     ⟨.serviceAccount, s.ns, rsyncServiceAccount ++ "-" ++ s.nameSuffix⟩,
     ⟨.role, s.ns, rsyncRole ++ "-" ++ s.nameSuffix⟩,
     ⟨.roleBinding, s.ns, rsyncRoleBinding ++ "-" ++ s.nameSuffix⟩]

/-! ## Decomposition of `CommandOptions.Options` into its segments

These definitions name the three token segments and three error segments of
the rendered option list; the theorem `rsyncOptionFiltering` proves that
`Options` equals their concatenation. -/

/-- The scalar-flag portion of the rendered options (everything before the
`--info=` token). -/
def optionsScalarTokens (c : CommandOptions) : List String :=
  (if c.Recursive then [optRecursive] else []) ++
  (if c.SymLinks then [optSymLinks] else []) ++
  (if c.Permissions then [optPermissions] else []) ++
  (if c.DeviceFiles then [optDeviceFiles] else []) ++
  (if c.SpecialFiles then [optSpecialFiles] else []) ++
  (if c.ModTimes then [optModTimes] else []) ++
  (if c.Owners then [optOwner] else []) ++
  (if c.Groups then [optGroup] else []) ++
  (if c.HardLinks then [optHardLinks] else []) ++
  (if c.Delete then [optDelete] else []) ++
  (if c.Partial then [optPartial] else []) ++
  (match c.BwLimit with
   | some b => if b > 0 then ["--bwlimit=" ++ toString b] else []
   | none => []) ++
  (if c.HumanReadable then [optHumanReadable] else []) ++
  (if c.LogFile ≠ "" then ["--log-file=" ++ c.LogFile] else [])

/-- The `--info=` token, when any info sub-options were supplied. -/
def optionsInfoTokens (c : CommandOptions) : List String :=
  if c.Info.length > 0 then
    ["--info=" ++ String.intercalate "," (filterRsyncInfoOptions c.Info).1]
  else []

/-- The validated extra flags, at the tail of the rendered list. -/
def optionsExtraTokens (c : CommandOptions) : List String :=
  if c.Extras.length > 0 then (filterRsyncExtraOptions c.Extras).1 else []

/-- The bwlimit validation error, if any. -/
def optionsBwErrs (c : CommandOptions) : List String :=
  match c.BwLimit with
  | some b => if b > 0 then [] else ["rsync bwlimit value must be a positive integer"]
  | none => []

/-- The `--info` validation errors. -/
def optionsInfoErrs (c : CommandOptions) : List String :=
  if c.Info.length > 0 then (filterRsyncInfoOptions c.Info).2 else []

/-- The extra-flag validation errors. -/
def optionsExtraErrs (c : CommandOptions) : List String :=
  if c.Extras.length > 0 then (filterRsyncExtraOptions c.Extras).2 else []

/-! ## Concrete fixtures used by counterexamples and witnesses -/

/-- A stunnel server transport handle. -/
def transportW : TransportM :=
  { nsName := ("ns1", "epname"), ttype := "stunnel", connectPort := 8000 }

/-- An endpoint owning a single object. -/
def endpointW : EndpointM :=
  { objKeys := [⟨.endpointObj, "ns1", "route-epname"⟩] }

/-- A reconciled rsync server handle. -/
def serverW : ServerM :=
  { username := "root", password := "pw", pvcList := [],
    transportServer := transportW, endpoint := endpointW, listenPort := 8000,
    nameSuffix := "abcdefghij", labels := [("app", "x")], ownerRefs := ["owner1"],
    options := {}, ns := "ns1" }

/-- The rsync server pod key for `serverW`. -/
def serverPodKeyW : ObjKey := ⟨.pod, "ns1", "rsync-server-abcdefghij"⟩

/-- An already-running server pod (non-zero creation timestamp) whose spec
differs from the currently desired one. -/
def oldPodW : Obj :=
  { key := serverPodKeyW, labels := [("app", "x")],
    spec := some { restartPolicy := "Always" }, creationTsZero := false }

/-- Store holding only the already-running server pod. -/
def storeC4W : Store := { objs := [oldPodW] }

/-- Store holding every object `serverW` owns (for the cleanup witness). -/
def storeC5W : Store :=
  { objs :=
      [{ key := ⟨.endpointObj, "ns1", "route-epname"⟩ },
       { key := ⟨.configMap, "ns1", getResourceName "epname" "server" stunnelConfig⟩ },
       { key := ⟨.secret, "ns1", getResourceName "epname" "certs" stunnelSecret⟩ },
       { key := ⟨.configMap, "ns1", rsyncConfig ++ "-abcdefghij"⟩, labels := [("pre", "kept")] },
       { key := ⟨.secret, "ns1", rsyncSecretStem ++ "-abcdefghij"⟩ },
       oldPodW,
       { key := ⟨.serviceAccount, "ns1", rsyncServiceAccount ++ "-abcdefghij"⟩ },
       { key := ⟨.role, "ns1", rsyncRole ++ "-abcdefghij"⟩ },
       { key := ⟨.roleBinding, "ns1", rsyncRoleBinding ++ "-abcdefghij"⟩ }] }

/-- The store after marking `serverW` for cleanup in `storeC5W`. -/
def storeC5W' : Store :=
  (serverMarkForCleanup serverW storeC5W "migration-complete" "true").2

/-- An rsync client handle over a non-stunnel transport. -/
def clientW : ClientM :=
  { pvcList := [⟨"ns1", "pvc1"⟩],
    transportClient := { nsName := ("ns1", "ep"), ttype := "none" },
    nameSuffix := "abcdefghij", labels := [("app", "rsync")], ns := "ns1" }

/-- A mover pod whose rsync container terminated with exit code 0. -/
def statusPodW : Obj :=
  { key := ⟨.pod, "ns1", "rsync-client-abcdefghij"⟩, labels := [("app", "rsync")],
    containerStatuses := [{ name := "rsync", terminated := some ⟨0, 7⟩ }] }

/-- Store holding only the completed mover pod. -/
def storeC6W : Store := { objs := [statusPodW] }

/-- PSK credentials naming an explicit secret. -/
def pskCredW : CredentialsM := { ctype := "PSK", secretRef := ("foo", "bar") }

/-- Transport options selecting PSK mode. -/
def pskOptionsW : TransportOptionsM := { credentials := some pskCredW }

/-- A certificate validator (never consulted on the PSK paths). -/
def verifyW : String → String → GoResult Bool := fun _ _ => .ok false

/-- A `certs.New()` outcome (never consulted on the PSK paths). -/
def bundleW : GoResult CertBundleM := .err "generation not invoked"

/-- An empty store. -/
def emptyStoreW : Store := { objs := [] }

/-- A valid PSK secret (its data has the `"key"` field). -/
def pskStoreW : Store :=
  { objs := [{ key := ⟨.secret, "foo", "bar"⟩, data := [("key", "abc")] }] }

/-- A client over two PVCs in one namespace. -/
def clientC8W : ClientM :=
  { pvcList := [⟨"ns1", "p1"⟩, ⟨"ns1", "p2"⟩],
    transportClient := { nsName := ("ns1", "ep"), ttype := "none" },
    nameSuffix := "abcdefghij", ns := "ns1", labels := [("app", "rsync")],
    ownerRefs := ["o"] }

/-- An empty store whose first write fails. -/
def storeC8W : Store := { objs := [], failQueue := [true] }

/-- An existing client pod with a non-zero creation timestamp. -/
def clientPodExistW : Obj :=
  { key := ⟨.pod, "ns1", "rsync-client-abcdefghij"⟩,
    spec := some { restartPolicy := "Always" }, creationTsZero := false }

/-- Store holding only the already-running client pod. -/
def storeC4cW : Store := { objs := [clientPodExistW] }

/-! ## Basic lemmas about the map and store models -/

theorem mapGet?_mapSet_self (m : List (String × String)) (k v : String) :
    mapGet? (mapSet m k v) k = some v := by
  induction m with
  | nil => simp [mapSet, mapGet?]
  | cons e rest ih =>
    by_cases he : e.1 = k
    · simp [mapSet, mapGet?, he]
    · simp only [mapSet, mapGet?] at *
      simp [he, ih]

theorem mapGet?_mapSet_ne (m : List (String × String)) (k v k' : String)
    (h : k' ≠ k) : mapGet? (mapSet m k v) k' = mapGet? m k' := by
  have hkk' : (k == k') = false := beq_eq_false_iff_ne.mpr (Ne.symm h)
  induction m with
  | nil => simp [mapSet, mapGet?, hkk']
  | cons e rest ih =>
    by_cases he : e.1 = k
    · have h3 : (e.1 == k') = false := by
        apply beq_eq_false_iff_ne.mpr
        rw [he]
        exact Ne.symm h
      simp [mapSet, mapGet?, he, hkk', h3]
    · by_cases he' : e.1 = k'
      · have h4 : (k' == k) = false := beq_eq_false_iff_ne.mpr h
        simp [mapSet, mapGet?, he, he', h4]
      · simp only [mapSet, mapGet?] at *
        simp [he, he', ih]

theorem mapSet_idem (m : List (String × String)) (k v : String) :
    mapSet (mapSet m k v) k v = mapSet m k v := by
  induction m with
  | nil => simp [mapSet]
  | cons e rest ih =>
    by_cases he : e.1 = k
    · simp [mapSet, he]
    · simp [mapSet, he, ih]

theorem labelObj_idem (o : Obj) (lk lv : String) :
    labelObj (labelObj o lk lv) lk lv = labelObj o lk lv := by
  simp [labelObj, mapSet_idem]

theorem labelObj_key (o : Obj) (lk lv : String) : (labelObj o lk lv).key = o.key := rfl

theorem find?_putObjList (l : List Obj) (o : Obj) (k : ObjKey) :
    (putObjList l o).find? (fun q => q.key == k) =
      if o.key = k then some o else l.find? (fun q => q.key == k) := by
  induction l with
  | nil =>
    by_cases hk : o.key = k <;> simp [putObjList, hk]
  | cons p rest ih =>
    by_cases hp : p.key = o.key
    · by_cases hk : o.key = k
      · simp [putObjList, hp, hk]
      · have hpk : ¬ p.key = k := by rw [hp]; exact hk
        simp [putObjList, hp, hk, hpk]
    · by_cases hk : o.key = k
      · have hpk : ¬ p.key = k := fun hpk => hp (hpk.trans hk.symm)
        simp [putObjList, hp, hk, hpk, ih]
      · by_cases hpk : p.key = k
        · have hk' : ¬ k = o.key := fun hh => hk hh.symm
          simp [putObjList, hp, hk, hpk, hk']
        · simp [putObjList, hp, hk, hpk, ih]

theorem getObj_putObj (st : Store) (o : Obj) (k : ObjKey) :
    getObj (putObj st o) k = if o.key = k then some o else getObj st k := by
  simp [getObj, putObj, find?_putObjList]

theorem consumeFail_objs (st : Store) : ((consumeFail st).2).objs = st.objs := by
  rcases st with ⟨objs, fq⟩
  cases fq <;> rfl

theorem getObj_key_eq (st : Store) (k : ObjKey) (o : Obj) (h : getObj st k = some o) :
    o.key = k := by
  have := List.find?_some h
  exact eq_of_beq this

/-! ## Digest-length lemmas -/

theorem md5digest_length (msg : List Nat) : (md5digest msg).length = 16 := by
  simp [md5digest]

theorem hexEncode_data_length (bs : List Nat) :
    (bs.foldr (fun b acc => hexDigit (b / 16) :: hexDigit (b % 16) :: acc) []).length =
      2 * bs.length := by
  induction bs with
  | nil => simp
  | cons b rest ih => simp [ih]; ring

theorem getMD5Hash_length (s : String) : (getMD5Hash s).length = 32 := by
  show (hexEncode (md5digest (utf8Bytes s))).length = 32
  have h1 : (hexEncode (md5digest (utf8Bytes s))).length =
      ((md5digest (utf8Bytes s)).foldr
        (fun b acc => hexDigit (b / 16) :: hexDigit (b % 16) :: acc) []).length := rfl
  rw [h1, hexEncode_data_length, md5digest_length]

/-!
## C1 — the identity suffix map

`transfer.NamespaceHashForNames` is documented to return "a map with a
unique md5 hash for each namespace", and the spec's suffix contract says the
value for a namespace is a short hash of the concatenated claim names.  The
second loop of the implementation, however, ranges over the map's values
instead of its keys, so the namespace keys keep the raw concatenation and
the hashes land under junk keys. -/

/-- Claim C1 (code_bug): evaluating `NamespaceHashForNames` at the failing
input, a single claim `(namespace "a", name "b")`: the value stored for
namespace `"a"` is the raw name `"b"`, which is not the MD5 hash of any
string (every `getMD5Hash` output has length 32), and the hash write
instead lands on the junk key `"b"`, which receives `getMD5Hash ""`. -/
theorem namespaceHashForNames_leaves_concatenation_unhashed :
    mapGet (NamespaceHashForNames [⟨"a", "b"⟩]) "a" = "b"
  ∧ (∀ s : String, mapGet (NamespaceHashForNames [⟨"a", "b"⟩]) "a" ≠ getMD5Hash s)
  ∧ mapGet? (NamespaceHashForNames [⟨"a", "b"⟩]) "b" = some (getMD5Hash "") := by
  have hval : mapGet (NamespaceHashForNames [⟨"a", "b"⟩]) "a" = "b" := by decide
  refine ⟨hval, ?_, by decide⟩
  intro s heq
  rw [hval] at heq
  have hlen := congrArg String.length heq
  rw [getMD5Hash_length] at hlen
  exact absurd hlen (by decide)

/-!
## C3 — default rsync flags and `--delete`

`ArchiveFiles(true).ApplyTo` sets `Recursive`, `SymLinks`, `Permissions`,
`ModTimes`, `Groups`, `Owners`, `DeviceFiles` and `SpecialFiles` but never
`HardLinks`, so the rendered default list carries no `--hard-links`. -/

/-- Claim C3 counterexample: the claim says the default rendered option
list contains `--hard-links`; it does not. -/
theorem rsyncDefaultOptions_no_hard_links :
    optHardLinks ∉ rsyncDefaultOptions.1 ∧ "--hard-links" ∉ rsyncDefaultOptions.1 := by
  decide

/-- Claim C3 (amended): with default options the rendered list is exactly
the eight archive flags `--recursive --links --perms --devices --specials
--times --owner --group` (no `--hard-links`), plus `--human-readable` and
one `--info=` token, with no `--delete` and no validation errors; applying
`DeleteDestination(true)` on top of the defaults adds exactly the single
flag `--delete` (between `--group` and `--human-readable`) and changes
nothing else. -/
theorem rsyncDefaultOptions_exact :
    rsyncDefaultOptions =
      (["--recursive", "--links", "--perms", "--devices", "--specials", "--times",
        "--owner", "--group", "--human-readable",
        "--info=COPY2,DEL2,REMOVE2,SKIP2,FLIST2,PROGRESS2,STATS2"], [])
  ∧ (deleteDestinationApplyTo true (applyAll {} rsyncCommandDefaultOptions)).Options =
      (["--recursive", "--links", "--perms", "--devices", "--specials", "--times",
        "--owner", "--group", "--delete", "--human-readable",
        "--info=COPY2,DEL2,REMOVE2,SKIP2,FLIST2,PROGRESS2,STATS2"], []) := by
  decide

/-!
## C10 — `GeneratePassword` length

The buffer is allocated with `make([]byte, 24)` and then appended to 24
times, so the returned string has 48 bytes: 24 NUL bytes followed by the 24
random letters. -/

theorem foldl_append_singleton {α β : Type} (f : α → β) (l : List α) (init : List β) :
    l.foldl (fun acc x => acc ++ [f x]) init = init ++ l.map f := by
  induction l generalizing init with
  | nil => simp
  | cons a rest ih => simp [ih]

/-- Claim C10 (confirmed): every successful `GeneratePassword` result has
length exactly 48, its first 24 bytes are NUL, and only its last 24
characters are drawn from the ASCII letters. -/
theorem generatePassword_structure (draws : Nat → Fin 52) :
    (GeneratePassword draws).length = 48
  ∧ (GeneratePassword draws).data.take 24 = List.replicate 24 (Char.ofNat 0)
  ∧ ∀ c ∈ (GeneratePassword draws).data.drop 24, c ∈ lettersGo := by
  have hdata : (GeneratePassword draws).data =
      List.replicate 24 (Char.ofNat 0) ++ (List.range 24).map (fun i => goLetter (draws i)) := by
    show ((List.range 24).foldl (fun pw i => pw ++ [goLetter (draws i)])
        (List.replicate 24 (Char.ofNat 0))) = _
    rw [foldl_append_singleton]
  refine ⟨?_, ?_, ?_⟩
  · show (GeneratePassword draws).data.length = 48
    rw [hdata]
    simp
  · rw [hdata]
    have h24 : (List.replicate 24 (Char.ofNat 0)).length = 24 := by simp
    rw [List.take_left' h24]
  · intro c hc
    rw [hdata] at hc
    have h24 : (List.replicate 24 (Char.ofNat 0)).length = 24 := by simp
    rw [List.drop_left' h24] at hc
    rcases List.mem_map.mp hc with ⟨i, _, hgi⟩
    rw [← hgi]
    exact List.get_mem _ _ _

/-!
## C9 — validation of caller-supplied rsync flags -/

theorem append_ite {α : Type} (p : Prop) [Decidable p] (l x : List α) :
    (if p then l ++ x else l) = l ++ (if p then x else []) := by
  split <;> simp

theorem filterRsyncInfoOptions_eq (ts : List String) :
    filterRsyncInfoOptions ts =
      ((ts.filter infoOptMatch).map goTrimSpace,
       (ts.filter (fun t => !infoOptMatch t)).map infoErrMsg) := by
  induction ts with
  | nil => rfl
  | cons t rest ih =>
    by_cases h : infoOptMatch t = true
    · simp [filterRsyncInfoOptions, h, ih, List.filter_cons]
    · have h' : infoOptMatch t = false := by simpa using h
      simp [filterRsyncInfoOptions, h', ih, List.filter_cons]

theorem filterRsyncExtraOptions_eq (ts : List String) :
    filterRsyncExtraOptions ts =
      (ts.filter extraOptMatch,
       (ts.filter (fun t => !extraOptMatch t)).map extraErrMsg) := by
  induction ts with
  | nil => rfl
  | cons t rest ih =>
    by_cases h : extraOptMatch t = true
    · simp [filterRsyncExtraOptions, h, ih, List.filter_cons]
    · have h' : extraOptMatch t = false := by simpa using h
      simp [filterRsyncExtraOptions, h', ih, List.filter_cons]

theorem options_decomp (c : CommandOptions) :
    c.Options = (optionsScalarTokens c ++ optionsInfoTokens c ++ optionsExtraTokens c,
                 optionsBwErrs c ++ optionsInfoErrs c ++ optionsExtraErrs c) := by
  rcases hbw : c.BwLimit with _ | b
  · by_cases hi : c.Info.length > 0 <;> by_cases he : c.Extras.length > 0 <;>
      · simp only [CommandOptions.Options, optionsScalarTokens, optionsInfoTokens,
          optionsExtraTokens, optionsBwErrs, optionsInfoErrs, optionsExtraErrs,
          hbw, append_ite]
        simp [hi, he, List.append_assoc]
  · by_cases hb : b > 0 <;> by_cases hi : c.Info.length > 0 <;>
      by_cases he : c.Extras.length > 0 <;>
      · simp only [CommandOptions.Options, optionsScalarTokens, optionsInfoTokens,
          optionsExtraTokens, optionsBwErrs, optionsInfoErrs, optionsExtraErrs,
          hbw, append_ite]
        simp [hb, hi, he, List.append_assoc]

/-- Claim C9 (confirmed): the rendered option list splits into the scalar
flags, the `--info=` token and the validated extra flags; the extra-flag
segment keeps exactly the tokens matching `^\-{1,2}([a-z0-9]+\-)*[a-z0-9]+$`
and every rejected token is reported in the aggregate; the `--info=` token
is built from exactly the sub-options matching `^[A-Z]+\d?$`, with the
rejects reported in the aggregate; sample tokens on both sides of each
regex anchor the recognizers. -/
theorem rsyncOptionFiltering (ts : List String) (c : CommandOptions) :
    filterRsyncInfoOptions ts =
      ((ts.filter infoOptMatch).map goTrimSpace,
       (ts.filter (fun t => !infoOptMatch t)).map infoErrMsg)
  ∧ filterRsyncExtraOptions ts =
      (ts.filter extraOptMatch,
       (ts.filter (fun t => !extraOptMatch t)).map extraErrMsg)
  ∧ c.Options = (optionsScalarTokens c ++ optionsInfoTokens c ++ optionsExtraTokens c,
                 optionsBwErrs c ++ optionsInfoErrs c ++ optionsExtraErrs c)
  ∧ optionsExtraTokens c = c.Extras.filter extraOptMatch
  ∧ optionsExtraErrs c = (c.Extras.filter (fun t => !extraOptMatch t)).map extraErrMsg
  ∧ optionsInfoErrs c = (c.Info.filter (fun t => !infoOptMatch t)).map infoErrMsg
  ∧ (extraOptMatch "--delete" = true ∧ extraOptMatch "-a" = true ∧
     extraOptMatch "-0" = true ∧ extraOptMatch "--foo-bar" = true ∧
     extraOptMatch "--log-file=/dev/stdout" = false ∧ extraOptMatch "--BAD" = false ∧
     extraOptMatch "-" = false ∧ extraOptMatch "--foo--bar" = false ∧
     infoOptMatch "STATS2" = true ∧ infoOptMatch "COPY" = true ∧
     infoOptMatch "stats2" = false ∧ infoOptMatch "STATS22" = false ∧
     infoOptMatch "" = false) := by
  have hex : c.Extras.length = 0 → c.Extras = [] := List.eq_nil_of_length_eq_zero
  have hin : c.Info.length = 0 → c.Info = [] := List.eq_nil_of_length_eq_zero
  refine ⟨filterRsyncInfoOptions_eq ts, filterRsyncExtraOptions_eq ts, options_decomp c,
          ?_, ?_, ?_, by decide⟩
  · by_cases he : c.Extras.length > 0
    · simp [optionsExtraTokens, he, filterRsyncExtraOptions_eq]
    · have : c.Extras = [] := hex (by omega)
      simp [optionsExtraTokens, he, this]
  · by_cases he : c.Extras.length > 0
    · simp [optionsExtraErrs, he, filterRsyncExtraOptions_eq]
    · have : c.Extras = [] := hex (by omega)
      simp [optionsExtraErrs, he, this]
  · by_cases hi : c.Info.length > 0
    · simp [optionsInfoErrs, hi, filterRsyncInfoOptions_eq]
    · have : c.Info = [] := hin (by omega)
      simp [optionsInfoErrs, hi, this]

/-!
## C6 — mover completion status -/

/-- Claim C6 (confirmed): for a mover pod matching the client's labels
whose rsync container has terminated, `client.Status` returns Completed
with `Successful = true, Failure = false` on exit code 0 and
`Successful = false, Failure = true` on a non-zero exit code; while the
rsync container has not terminated, the query returns an error rather than
either completed status — all of it read from container statuses only. -/
theorem clientStatus_completion (tc : ClientM) (st : Store) (p : Obj) (cs : ContainerStatusM)
    (hpods : st.objs.filter (fun o => o.key.kind == ObjKind.pod && matchLabels tc.labels o.labels) = [p])
    (hcs : p.containerStatuses = [cs]) (hname : cs.name = "rsync") :
    (∀ t, cs.terminated = some t → t.exitCode = 0 →
        clientStatus tc st =
          .ok { completed := some { successful := true, failure := false,
                                    finishedAt := some t.finishedAt } })
  ∧ (∀ t, cs.terminated = some t → t.exitCode ≠ 0 →
        clientStatus tc st =
          .ok { running := none,
                completed := some { successful := false, failure := true,
                                    finishedAt := some t.finishedAt } })
  ∧ (cs.terminated = none →
        clientStatus tc st =
          .err "unable to find the appropriate container to inspect status for rsync transfer") := by
  unfold clientStatus
  rw [hpods]
  refine ⟨?_, ?_, ?_⟩
  · intro t ht h0
    simp [statusScan, hcs, findRsyncTerminated, RsyncContainer, hname, ht, h0]
  · intro t ht h0
    have hb : (t.exitCode == 0) = false := by simpa using h0
    simp [statusScan, hcs, findRsyncTerminated, RsyncContainer, hname, ht, hb]
  · intro ht
    simp [statusScan, hcs, findRsyncTerminated, RsyncContainer, hname, ht]

/-- Witness for C6: a pod whose rsync container exited 0 yields the
successful completed status. -/
theorem clientStatus_completion_witness :
    (storeC6W.objs.filter
        (fun o => o.key.kind == ObjKind.pod && matchLabels clientW.labels o.labels) = [statusPodW])
  ∧ clientStatus clientW storeC6W =
      .ok { completed := some { successful := true, failure := false, finishedAt := some 7 } } := by
  refine ⟨by decide, ?_⟩
  have h := clientStatus_completion clientW storeC6W statusPodW
    { name := "rsync", terminated := some ⟨0, 7⟩ } (by decide) (by decide) rfl
  exact h.1 ⟨0, 7⟩ rfl rfl

/-!
## C7 — PSK credential validation and (non-)generation -/

/-- Claim C7 counterexample: with PSK credentials configured and no valid
PSK secret in the store, `reconcileCredentialSecret` does not generate and
persist a PSK secret — it returns the error `cannot create credentials of
type PSK` and leaves the store unchanged, which the package's own tests pin
("must return error as PSK cannot be created"). -/
theorem pskCredentials_not_generated :
    reconcileCredentialSecret verifyW bundleW ("ns", "nm") pskOptionsW emptyStoreW =
      (.err "cannot create credentials of type PSK", emptyStoreW) := by
  decide

/-- Claim C7 (amended): in pre-shared-key mode, credential validation
succeeds iff the persisted secret exists and its data contains the field
`"key"`; and when no valid PSK secret exists, reconciling the credentials
returns an error (no secret is generated or persisted, the store is
unchanged). -/
theorem pskValidationAndNoGeneration (st : Store) (ref : String × String)
    (verify : String → String → GoResult Bool) (nb : GoResult CertBundleM)
    (nsn : String × String) (o : TransportOptionsM) (c : CredentialsM)
    (hc : o.credentials = some c) (hty : c.ctype = "PSK")
    (hrefName : c.secretRef.2 ≠ "") :
    (isPSKSecretValid st ref = .ok true ↔
       ∃ obj, getObj st ⟨.secret, ref.1, ref.2⟩ = some obj ∧ mapGet? obj.data "key" ≠ none)
  ∧ (isPSKSecretValid st c.secretRef = .ok false →
       reconcileCredentialSecret verify nb nsn o st =
         (.err "cannot create credentials of type PSK", st)) := by
  constructor
  · unfold isPSKSecretValid
    rcases hobj : getObj st ⟨.secret, ref.1, ref.2⟩ with _ | obj
    · simp
    · rcases hkey : mapGet? obj.data "key" with _ | v
      · simp [hkey]
      · simp [hkey]
  · intro hpsk
    have hrn : (c.secretRef.2 != "") = true := bne_iff_ne.mpr hrefName
    unfold reconcileCredentialSecret
    simp only [hc]
    simp [hty, hrn, hpsk, CredentialsTypePSK, CredentialsTypeTLS]

/-- Witness for C7: a secret with the `"key"` field validates, and with an
empty store the PSK reconcile path errors without writing. -/
theorem pskValidationAndNoGeneration_witness :
    (pskOptionsW.credentials = some pskCredW ∧ pskCredW.ctype = "PSK" ∧
       pskCredW.secretRef.2 ≠ "")
  ∧ (isPSKSecretValid pskStoreW ("foo", "bar") = .ok true ↔
       ∃ obj, getObj pskStoreW ⟨.secret, "foo", "bar"⟩ = some obj ∧
         mapGet? obj.data "key" ≠ none)
  ∧ (isPSKSecretValid emptyStoreW pskCredW.secretRef = .ok false →
       reconcileCredentialSecret verifyW bundleW ("ns", "nm") pskOptionsW emptyStoreW =
         (.err "cannot create credentials of type PSK", emptyStoreW)) := by
  refine ⟨⟨rfl, rfl, by decide⟩, ?_, ?_⟩
  · exact (pskValidationAndNoGeneration pskStoreW ("foo", "bar") verifyW bundleW
      ("ns", "nm") pskOptionsW pskCredW rfl rfl (by decide)).1
  · exact (pskValidationAndNoGeneration emptyStoreW ("foo", "bar") verifyW bundleW
      ("ns", "nm") pskOptionsW pskCredW rfl rfl (by decide)).2

/-!
## C2 — constructor rejection of empty and cross-namespace volume sets -/

/-- Claim C2 (code_bug): `NewClient` does reject an empty or
cross-namespace PVC list with a non-nil error before touching the store;
`NewServer` rejects a cross-namespace list (when the first namespace's
concatenated claim names survive the 10-byte slice), but with an EMPTY PVC
list it panics slicing `NamespaceHashForNames(pvcList)[namespace][:10]`
(an empty string) before its own empty-list check can return the intended
error — a panic, not a returned error.  In every case the store is left
untouched. -/
theorem newServerEmptyListPanics (st : Store) (t : TransportM) (e : EndpointM)
    (labels : List (String × String)) (owners : List String) (pw ns0 : String)
    (opts : PodOptionsM) :
    NewServer [] t e labels owners pw {} st = (.crash "slice bounds out of range", st)
  ∧ NewServer [⟨"ns1", "a"⟩, ⟨"ns2", "b"⟩] t e labels owners pw {} st =
      (.crash "slice bounds out of range", st)
  ∧ NewServer [⟨"ns1", "aaaaaaaaaaaa"⟩, ⟨"ns2", "b"⟩] t e labels owners pw {} st =
      (.err "PVC list provided has pvcs in different namespaces which is not supported", st)
  ∧ NewClient [] t ns0 labels owners opts st =
      (.err "ether PVC list is empty or namespace is not specified", st)
  ∧ NewClient [⟨"ns1", "pvc1"⟩, ⟨"ns2", "pvc2"⟩] t ns0 labels owners opts st =
      (.err "PVC list provided has pvcs in different namespaces which is not supported", st) := by
  exact ⟨rfl, rfl, rfl, rfl, rfl⟩

/-!
## C4 — existing pods and spec overwrites -/

theorem getObj_objs_eq {st st' : Store} (h : st'.objs = st.objs) (k : ObjKey) :
    getObj st' k = getObj st k := by
  unfold getObj
  rw [h]

theorem createOrUpdate_found (st : Store) (k : ObjKey) (mutate : Obj → Obj) (o : Obj)
    (hfound : getObj st k = some o) (hkey : (mutate o).key = k) (res : GoResult Unit)
    (st' : Store) (hcu : createOrUpdate st k mutate = (res, st')) :
    getObj st' k = some o ∨ getObj st' k = some (mutate o) := by
  have hred : createOrUpdate st k mutate =
      (if (mutate o == o) = true then (GoResult.ok (), st)
       else
         match consumeFail st with
         | (fail, st₂) =>
           if fail = true then (GoResult.err "update failed", st₂)
           else (GoResult.ok (), putObj st₂ (mutate o))) := by
    unfold createOrUpdate
    rw [hfound]
  rw [hred] at hcu
  by_cases heq : (mutate o == o) = true
  · rw [heq] at hcu
    simp only [if_true] at hcu
    cases hcu
    exact Or.inl hfound
  · rw [Bool.not_eq_true] at heq
    rw [heq] at hcu
    simp only [Bool.false_eq_true, if_false] at hcu
    rcases hcf : consumeFail st with ⟨fail, stf⟩
    rw [hcf] at hcu
    cases fail
    · simp only [Bool.false_eq_true, if_false] at hcu
      cases hcu
      right
      rw [getObj_putObj, hkey]
      simp
    · simp only [if_true] at hcu
      injection hcu with h1 h2
      rw [← h2]
      left
      have hobjs : stf.objs = st.objs := by
        have h0 := consumeFail_objs st
        rw [hcf] at h0
        exact h0
      rw [getObj_objs_eq hobjs]
      exact hfound

theorem clientPodLoop_preserves_existing_spec (tc : ClientM) (ro : List String)
    (ns : String) (p : Obj) (hts : p.creationTsZero = false) :
    ∀ (pvcs : List PVCm), (∀ q ∈ pvcs, q.ns = ns) →
    ∀ (tcont : List ContainerM) (st : Store) (errs : List (Option String))
      (lbl ann : List (String × String)) (own : List String),
      getObj st ⟨.pod, ns, "rsync-client-" ++ tc.nameSuffix⟩ =
        some { p with labels := lbl, annotations := ann, ownerRefs := own } →
      ∃ lbl' ann' own',
        getObj (clientPodLoop tc ro pvcs tcont st errs).st
            ⟨.pod, ns, "rsync-client-" ++ tc.nameSuffix⟩ =
          some { p with labels := lbl', annotations := ann', ownerRefs := own' } := by
  intro pvcs
  induction pvcs with
  | nil =>
    intro _ tcont st errs lbl ann own h
    exact ⟨lbl, ann, own, h⟩
  | cons q rest ih =>
    intro hns tcont st errs lbl ann own h
    have hq : q.ns = ns := hns q (List.mem_cons_self q rest)
    have hrest : ∀ r ∈ rest, r.ns = ns := fun r hr => hns r (List.mem_cons_of_mem q hr)
    unfold clientPodLoop
    rcases hc : customizeTransportClientContainers tc.transportClient.ttype tcont
      with tcont' | m | _ | m
    · simp only [hq]
      rcases hcu : createOrUpdate st ⟨.pod, ns, "rsync-client-" ++ tc.nameSuffix⟩
          (fun o =>
            let o := { o with labels := tc.labels,
                              annotations := [("pvc", q.name)],
                              ownerRefs := tc.ownerRefs }
            if o.creationTsZero then
              { o with spec := some (clientDesiredPodSpec tc ro tcont' q) }
            else o) with ⟨res, st'⟩
    -- the mutate function maps the current pod to the refreshed pod:
    -- `creationTsZero` is false, so the spec branch is not taken
      have hkeyP : ({ p with labels := lbl, annotations := ann, ownerRefs := own : Obj }).key =
          (⟨.pod, ns, "rsync-client-" ++ tc.nameSuffix⟩ : ObjKey) :=
        getObj_key_eq st _ _ h
      have hstep := createOrUpdate_found st ⟨.pod, ns, "rsync-client-" ++ tc.nameSuffix⟩ _ _
        h (by simp only [hts, Bool.false_eq_true, if_false]; exact hkeyP) res st' hcu
      simp only [hts, Bool.false_eq_true, if_false] at hstep
      rw [hcu]
      rcases hstep with h' | h'
      · exact ih hrest tcont' st' (errs ++ [errEntry res]) lbl ann own (by rw [hts]; exact h')
      · exact ih hrest tcont' st' (errs ++ [errEntry res]) tc.labels [("pvc", q.name)]
          tc.ownerRefs (by rw [hts]; exact h')
    · exact ⟨lbl, ann, own, h⟩
    · exact ⟨lbl, ann, own, h⟩
    · exact ⟨lbl, ann, own, h⟩

set_option maxRecDepth 4000

/-- Claim C4 counterexample: the server's `reconcilePod` assigns
`server.Spec = podSpec` unconditionally, so reconciling an already-running
server pod (non-zero creation timestamp, different spec) rewrites its spec
to the freshly computed one, contradicting the claim that both
`reconcilePod`s leave an existing pod's spec untouched. -/
theorem serverReconcilePod_overwrites_spec :
    getObj storeC4W serverPodKeyW = some oldPodW
  ∧ oldPodW.creationTsZero = false
  ∧ (getObj (serverReconcilePod serverW storeC4W "ns1").2 serverPodKeyW).map Obj.spec =
      some (some (serverDesiredPodSpec serverW "ns1"))
  ∧ some (serverDesiredPodSpec serverW "ns1") ≠ oldPodW.spec := by
  decide

theorem createOrUpdate_found_noFail (st : Store) (k : ObjKey) (mutate : Obj → Obj)
    (o : Obj) (hfound : getObj st k = some o) (hfq : st.failQueue = [])
    (hkey : (mutate o).key = k) :
    getObj (createOrUpdate st k mutate).2 k = some (mutate o) := by
  have hcf : consumeFail st = (false, st) := by
    unfold consumeFail
    rw [hfq]
  have hstep : createOrUpdate st k mutate =
      (if (mutate o == o) = true then (GoResult.ok (), st)
       else (GoResult.ok (), putObj st (mutate o))) := by
    unfold createOrUpdate
    rw [hfound, hcf]
    rfl
  rw [hstep]
  by_cases heq : (mutate o == o) = true
  · simp only [heq, if_true]
    show getObj st k = some (mutate o)
    rw [eq_of_beq heq]
    exact hfound
  · rw [Bool.not_eq_true] at heq
    simp only [heq, Bool.false_eq_true, if_false]
    show getObj (putObj st (mutate o)) k = some (mutate o)
    rw [getObj_putObj, hkey]
    simp

/-- Claim C4 (amended): for a transfer pod that already exists (non-zero
creation timestamp), the rsync CLIENT's `reconcilePod` leaves the pod's
spec — and every field other than labels, annotations and owner
references — unchanged; the rsync SERVER's `reconcilePod`, by contrast,
always overwrites the pod's spec with the freshly computed pod spec
(refreshing labels and owner references as well). -/
theorem reconcilePod_existing_pod_frame :
    (∀ (tc : ClientM) (st : Store) (ns : String) (p : Obj),
       getObj st ⟨.pod, ns, "rsync-client-" ++ tc.nameSuffix⟩ = some p →
       p.creationTsZero = false →
       ∃ lbl ann own,
         getObj (clientReconcilePod tc st ns).st ⟨.pod, ns, "rsync-client-" ++ tc.nameSuffix⟩ =
           some { p with labels := lbl, annotations := ann, ownerRefs := own })
  ∧ (∀ (s : ServerM) (st : Store) (ns : String) (p : Obj),
       getObj st ⟨.pod, ns, "rsync-server-" ++ s.nameSuffix⟩ = some p →
       st.failQueue = [] →
       getObj (serverReconcilePod s st ns).2 ⟨.pod, ns, "rsync-server-" ++ s.nameSuffix⟩ =
         some { p with labels := s.labels, ownerRefs := s.ownerRefs,
                       spec := some (serverDesiredPodSpec s ns) }) := by
  constructor
  · intro tc st ns p h hts
    have hns : ∀ q ∈ inNamespace tc.pvcList ns, q.ns = ns := by
      intro q hq
      have := List.mem_filter.mp hq
      exact eq_of_beq this.2
    unfold clientReconcilePod
    have hd : (!rsyncDefaultOptions.2.isEmpty) = false := by decide
    simp only [hd, Bool.false_eq_true, if_false]
    rcases hco : tc.options.commandOptions with _ | co
    · exact clientPodLoop_preserves_existing_spec tc rsyncDefaultOptions.1 ns p hts
        (inNamespace tc.pvcList ns) hns tc.transportClient.containers st []
        p.labels p.annotations p.ownerRefs h
    · by_cases hcoerr : (!(CommandOptions.Options co).2.isEmpty) = true
      · simp only [hcoerr, if_true]
        exact ⟨p.labels, p.annotations, p.ownerRefs, h⟩
      · rw [Bool.not_eq_true] at hcoerr
        simp only [hcoerr, Bool.false_eq_true, if_false]
        exact clientPodLoop_preserves_existing_spec tc (CommandOptions.Options co).1 ns p hts
          (inNamespace tc.pvcList ns) hns tc.transportClient.containers st []
          p.labels p.annotations p.ownerRefs h
  · intro s st ns p h hfq
    have hkeyP : p.key = (⟨.pod, ns, "rsync-server-" ++ s.nameSuffix⟩ : ObjKey) :=
      getObj_key_eq st _ _ h
    exact createOrUpdate_found_noFail st ⟨.pod, ns, "rsync-server-" ++ s.nameSuffix⟩
      (fun o => { o with labels := s.labels, ownerRefs := s.ownerRefs,
                         spec := some (serverDesiredPodSpec s ns) }) p h hfq hkeyP

/-- Witness for C4 (amended), at an existing client pod and an existing
server pod with empty failure schedule. -/
theorem reconcilePod_existing_pod_frame_witness :
    (getObj storeC4cW ⟨.pod, "ns1", "rsync-client-" ++ clientW.nameSuffix⟩ = some clientPodExistW
  ∧ clientPodExistW.creationTsZero = false
  ∧ ∃ lbl ann own,
      getObj (clientReconcilePod clientW storeC4cW "ns1").st
          ⟨.pod, "ns1", "rsync-client-" ++ clientW.nameSuffix⟩ =
        some { clientPodExistW with labels := lbl, annotations := ann, ownerRefs := own })
  ∧ (getObj storeC4W ⟨.pod, "ns1", "rsync-server-" ++ serverW.nameSuffix⟩ = some oldPodW
  ∧ storeC4W.failQueue = []
  ∧ getObj (serverReconcilePod serverW storeC4W "ns1").2
        ⟨.pod, "ns1", "rsync-server-" ++ serverW.nameSuffix⟩ =
      some { oldPodW with labels := serverW.labels, ownerRefs := serverW.ownerRefs,
                          spec := some (serverDesiredPodSpec serverW "ns1") }) := by
  refine ⟨⟨by decide, rfl, ?_⟩, ⟨by decide, rfl, ?_⟩⟩
  · exact reconcilePod_existing_pod_frame.1 clientW storeC4cW "ns1" clientPodExistW
      (by decide) rfl
  · exact reconcilePod_existing_pod_frame.2 serverW storeC4W "ns1" oldPodW (by decide) rfl

/-!
## C8 — the per-PVC client loop and its error aggregate -/

theorem clientPodLoop_processes_all (tc : ClientM) (ro : List String)
    (hty : tc.transportClient.ttype ≠ "stunnel") :
    ∀ (pvcs : List PVCm) (tcont : List ContainerM) (st : Store)
      (errs : List (Option String)),
      (clientPodLoop tc ro pvcs tcont st errs).result = .ok ()
    ∧ (clientPodLoop tc ro pvcs tcont st errs).errs.length = errs.length + pvcs.length := by
  have hb : (tc.transportClient.ttype == "stunnel") = false := beq_eq_false_iff_ne.mpr hty
  intro pvcs
  induction pvcs with
  | nil =>
    intro tcont st errs
    exact ⟨rfl, by simp [clientPodLoop]⟩
  | cons q rest ih =>
    intro tcont st errs
    have hc : customizeTransportClientContainers tc.transportClient.ttype tcont =
        .ok tcont := by
      unfold customizeTransportClientContainers
      rw [hb]
      rfl
    rcases hcu : createOrUpdate st ⟨.pod, q.ns, "rsync-client-" ++ tc.nameSuffix⟩
        (fun o =>
          let o := { o with labels := tc.labels,
                            annotations := [("pvc", q.name)],
                            ownerRefs := tc.ownerRefs }
          if o.creationTsZero then
            { o with spec := some (clientDesiredPodSpec tc ro tcont q) }
          else o) with ⟨res, st'⟩
    have hstep : clientPodLoop tc ro (q :: rest) tcont st errs =
        clientPodLoop tc ro rest tcont st' (errs ++ [errEntry res]) := by
      conv_lhs => unfold clientPodLoop
      simp only [hc, hcu]
    rw [hstep]
    have hrec := ih tcont st' (errs ++ [errEntry res])
    refine ⟨hrec.1, ?_⟩
    rw [hrec.2]
    simp
    omega

/-- Claim C8 counterexample: with two PVCs and a store whose first write
fails, `client.reconcilePod` collects the create error into its `errs`
slice, still processes the second PVC (the pod exists afterwards), and yet
RETURNS NIL — the non-empty aggregate is only logged, never propagated to
the caller, contradicting the claim that the aggregate is returned
unchanged. -/
theorem clientReconcilePod_returns_nil_despite_error :
    (clientReconcilePod clientC8W storeC8W "ns1").result = .ok ()
  ∧ (clientReconcilePod clientC8W storeC8W "ns1").errs = [some "create failed", none]
  ∧ (clientReconcilePod clientC8W storeC8W "ns1").errs.filterMap id ≠ []
  ∧ (getObj (clientReconcilePod clientC8W storeC8W "ns1").st
        ⟨.pod, "ns1", "rsync-client-abcdefghij"⟩).isSome = true := by
  decide

/-- Claim C8 (amended): the rsync client's `reconcilePod` processes the
namespace's PVCs in a sequential loop in which a create-or-update failure
for one PVC does not abort processing of the remaining PVCs (one `errs`
entry per PVC, regardless of failures), and the per-PVC errors are
collected into an aggregate — but that aggregate is only logged;
`reconcilePod` returns nil to its caller, so the errors are NOT
propagated. -/
theorem clientReconcilePod_swallows_aggregate (tc : ClientM) (st : Store) (ns : String)
    (hco : tc.options.commandOptions = none)
    (hty : tc.transportClient.ttype ≠ "stunnel") :
    (clientReconcilePod tc st ns).result = .ok ()
  ∧ (clientReconcilePod tc st ns).errs.length = (inNamespace tc.pvcList ns).length := by
  unfold clientReconcilePod
  have hd : (!rsyncDefaultOptions.2.isEmpty) = false := by decide
  simp only [hd, Bool.false_eq_true, if_false, hco]
  have h := clientPodLoop_processes_all tc rsyncDefaultOptions.1 hty
    (inNamespace tc.pvcList ns) tc.transportClient.containers st []
  exact ⟨h.1, by rw [h.2]; simp⟩

/-- Witness for C8 (amended): at the two-PVC fixture with a failing first
write, the loop reports one entry per PVC and returns nil. -/
theorem clientReconcilePod_swallows_aggregate_witness :
    (clientC8W.options.commandOptions = none ∧ clientC8W.transportClient.ttype ≠ "stunnel")
  ∧ ((clientReconcilePod clientC8W storeC8W "ns1").result = .ok ()
  ∧ (clientReconcilePod clientC8W storeC8W "ns1").errs.length =
      (inNamespace clientC8W.pvcList "ns1").length) :=
  ⟨⟨rfl, by decide⟩,
   clientReconcilePod_swallows_aggregate clientC8W storeC8W "ns1" rfl (by decide)⟩

/-!
## C5 — mark-for-cleanup labels everything and deletes nothing -/

theorem cleanupFrame_refl (lk lv : String) (st : Store) : cleanupFrame lk lv st st := by
  intro k
  rcases h : getObj st k with _ | o
  · exact Or.inl ⟨rfl, rfl⟩
  · exact Or.inr ⟨o, rfl, Or.inl rfl⟩

theorem cleanupFrame_trans {lk lv : String} {st1 st2 st3 : Store}
    (h1 : cleanupFrame lk lv st1 st2) (h2 : cleanupFrame lk lv st2 st3) :
    cleanupFrame lk lv st1 st3 := by
  intro k
  rcases h1 k with ⟨ha, hb⟩ | ⟨o, ha, hb | hb⟩
  · rcases h2 k with ⟨hc, hd⟩ | ⟨o', hc, _⟩
    · exact Or.inl ⟨ha, hd⟩
    · rw [hb] at hc
      cases hc
  · rcases h2 k with ⟨hc, _⟩ | ⟨o', hc, hd⟩
    · rw [hb] at hc
      cases hc
    · rw [hb] at hc
      injection hc with hoo
      subst hoo
      exact Or.inr ⟨o, ha, hd⟩
  · rcases h2 k with ⟨hc, _⟩ | ⟨o', hc, hd | hd⟩
    · rw [hb] at hc
      cases hc
    · rw [hb] at hc
      injection hc with hoo
      subst hoo
      exact Or.inr ⟨o, ha, Or.inr hd⟩
    · rw [hb] at hc
      injection hc with hoo
      subst hoo
      rw [labelObj_idem] at hd
      exact Or.inr ⟨o, ha, Or.inr hd⟩

theorem cleanupFrame_isSome {lk lv : String} {st st' : Store}
    (h : cleanupFrame lk lv st st') (k : ObjKey) :
    (getObj st k).isSome → (getObj st' k).isSome := by
  intro hs
  rcases h k with ⟨ha, _⟩ | ⟨o, _, hb | hb⟩
  · rw [ha] at hs
    cases hs
  · rw [hb]
    rfl
  · rw [hb]
    rfl

theorem hasLabelVal_mono {lk lv : String} {st st' : Store} {k : ObjKey}
    (h : cleanupFrame lk lv st st') (hl : hasLabelVal st k lk lv) :
    hasLabelVal st' k lk lv := by
  rcases hl with ⟨o, ho, hlbl⟩
  rcases h k with ⟨ha, _⟩ | ⟨o', ha, hb | hb⟩
  · rw [ho] at ha
    cases ha
  · rw [ho] at ha
    injection ha with hoo
    exact ⟨o', hb, hoo ▸ hlbl⟩
  · rw [ho] at ha
    injection ha with hoo
    exact ⟨labelObj o' lk lv, hb, mapGet?_mapSet_self _ _ _⟩

theorem updateWithLabel_ok {st st' : Store} {k : ObjKey} {lk lv : String}
    (h : UpdateWithLabel st k lk lv = (.ok (), st')) :
    cleanupFrame lk lv st st' ∧ hasLabelVal st' k lk lv := by
  unfold UpdateWithLabel at h
  rcases hg : getObj st k with _ | o
  · rw [hg] at h
    simp at h
  · simp only [hg] at h
    rcases hcf : consumeFail st with ⟨fail, stf⟩
    simp only [hcf] at h
    cases fail
    · simp only [Bool.false_eq_true, if_false] at h
      injection h with h1 h2
      have hobjs : stf.objs = st.objs := by
        have h0 := consumeFail_objs st
        rw [hcf] at h0
        exact h0
      have hkk : o.key = k := getObj_key_eq st k o hg
      have hL : ({ o with labels := mapSet o.labels lk lv } : Obj) = labelObj o lk lv := rfl
      subst h2
      constructor
      · intro k'
        by_cases hk : k = k'
        · subst hk
          refine Or.inr ⟨o, hg, Or.inr ?_⟩
          rw [getObj_putObj]
          simp only [hL]
          have : (labelObj o lk lv).key = k := hkk
          simp [this, hkk]
        · have hget : getObj (putObj stf { o with labels := mapSet o.labels lk lv }) k' =
              getObj st k' := by
            rw [getObj_putObj]
            have : ({ o with labels := mapSet o.labels lk lv } : Obj).key = o.key := rfl
            rw [this, hkk]
            simp only [hk, if_false]
            exact getObj_objs_eq hobjs k'
          rcases hgk : getObj st k' with _ | o'
          · exact Or.inl ⟨rfl, by rw [hget, hgk]⟩
          · exact Or.inr ⟨o', rfl, Or.inl (by rw [hget, hgk])⟩
      · refine ⟨labelObj o lk lv, ?_, mapGet?_mapSet_self _ _ _⟩
        rw [getObj_putObj]
        simp only [hL]
        have : (labelObj o lk lv).key = k := hkk
        simp [this, hkk]
    · simp at h

theorem updateWithLabel_notFound {st st' : Store} {k : ObjKey} {lk lv : String}
    (h : UpdateWithLabel st k lk lv = (.errNotFound, st')) :
    st' = st ∧ getObj st k = none := by
  unfold UpdateWithLabel at h
  rcases hg : getObj st k with _ | o
  · rw [hg] at h
    exact ⟨(Prod.mk.injEq _ _ _ _ ▸ h).2.symm, rfl⟩
  · simp only [hg] at h
    rcases hcf : consumeFail st with ⟨fail, stf⟩
    simp only [hcf] at h
    cases fail <;> simp at h

theorem updateWithLabelSeq_ok {lk lv : String} :
    ∀ (keys : List ObjKey) (st st' : Store),
      updateWithLabelSeq st keys lk lv = (.ok (), st') →
      cleanupFrame lk lv st st' ∧ ∀ k ∈ keys, hasLabelVal st' k lk lv := by
  intro keys
  induction keys with
  | nil =>
    intro st st' h
    unfold updateWithLabelSeq at h
    injection h with _ h2
    subst h2
    exact ⟨cleanupFrame_refl lk lv st, by simp⟩
  | cons k rest ih =>
    intro st st' h
    rcases hu : UpdateWithLabel st k lk lv with ⟨r, st1⟩
    cases r with
    | ok v =>
      simp only [updateWithLabelSeq, hu] at h
      have hfirst := updateWithLabel_ok hu
      have hrest := ih st1 st' h
      refine ⟨cleanupFrame_trans hfirst.1 hrest.1, ?_⟩
      intro k' hk'
      rcases List.mem_cons.mp hk' with hk' | hk'
      · subst hk'
        exact hasLabelVal_mono hrest.1 hfirst.2
      · exact hrest.2 k' hk'
    | err m => simp [updateWithLabelSeq, hu] at h
    | errNotFound => simp [updateWithLabelSeq, hu] at h
    | crash m => simp [updateWithLabelSeq, hu] at h

theorem stunnelMarkForCleanup_ok {nsName : String × String} {component : String}
    {st st' : Store} {lk lv : String}
    (h : stunnelMarkForCleanup nsName component st lk lv = (.ok (), st')) :
    cleanupFrame lk lv st st'
  ∧ hasLabelVal st' ⟨.configMap, nsName.1, getResourceName nsName.2 component stunnelConfig⟩ lk lv
  ∧ ((getObj st ⟨.secret, nsName.1, getResourceName nsName.2 "certs" stunnelSecret⟩).isSome →
       hasLabelVal st' ⟨.secret, nsName.1, getResourceName nsName.2 "certs" stunnelSecret⟩ lk lv) := by
  rcases h1 : UpdateWithLabel st
      ⟨.configMap, nsName.1, getResourceName nsName.2 component stunnelConfig⟩ lk lv with ⟨r1, st1⟩
  cases r1 with
  | ok v1 =>
    have hcm := updateWithLabel_ok h1
    rcases h2 : UpdateWithLabel st1
        ⟨.secret, nsName.1, getResourceName nsName.2 "certs" stunnelSecret⟩ lk lv with ⟨r2, st2⟩
    cases r2 with
    | ok v2 =>
      simp only [stunnelMarkForCleanup, h1, h2] at h
      have hsec := updateWithLabel_ok h2
      injection h with _ hst
      subst hst
      exact ⟨cleanupFrame_trans hcm.1 hsec.1, hasLabelVal_mono hsec.1 hcm.2,
             fun _ => hsec.2⟩
    | errNotFound =>
      simp only [stunnelMarkForCleanup, h1, h2] at h
      have hnf := updateWithLabel_notFound h2
      injection h with _ hst
      subst hst
      rcases hnf with ⟨hst1, habsent⟩
      subst hst1
      refine ⟨hcm.1, hcm.2, ?_⟩
      intro hsome
      have hs1 := cleanupFrame_isSome hcm.1 _ hsome
      rw [habsent] at hs1
      cases hs1
    | err m => simp [stunnelMarkForCleanup, h1, h2] at h
    | crash m => simp [stunnelMarkForCleanup, h1, h2] at h
  | err m => simp [stunnelMarkForCleanup, h1] at h
  | errNotFound => simp [stunnelMarkForCleanup, h1] at h
  | crash m => simp [stunnelMarkForCleanup, h1] at h

/-- Claim C5 (confirmed; the endpoint side is modelled from the spec): for
every successful `server.MarkForCleanup(key, value)`, every owned object
that exists — the endpoint's objects, the transport's config map and
credential secret, the rsync config map, the rsync secret, the
rsync-server pod, the service account, the role and the role binding —
afterwards carries the label `key = value`; no object is deleted or
created, and each object's other labels and non-label fields are
unchanged (`cleanupFrame`). -/
theorem serverMarkForCleanup_frame (s : ServerM) (st st' : Store) (lk lv : String)
    (h : serverMarkForCleanup s st lk lv = (.ok (), st')) :
    cleanupFrame lk lv st st'
  ∧ ∀ k ∈ serverOwnedKeys s, (getObj st k).isSome → hasLabelVal st' k lk lv := by
  rcases h1 : endpointMarkForCleanup s.endpoint st lk lv with ⟨r1, st1⟩
  rcases h2 : stunnelServerMarkForCleanup s.transportServer st1 lk lv with ⟨r2, st2⟩
  cases r1 with
  | ok v1 =>
    cases r2 with
    | ok v2 =>
      simp only [serverMarkForCleanup, h1, h2] at h
      have hep := updateWithLabelSeq_ok s.endpoint.objKeys st st1 h1
      have htr := stunnelMarkForCleanup_ok h2
      have hseq := updateWithLabelSeq_ok _ st2 st' h
      have hframe : cleanupFrame lk lv st st' :=
        cleanupFrame_trans (cleanupFrame_trans hep.1 htr.1) hseq.1
      refine ⟨hframe, ?_⟩
      intro k hk hsome
      unfold serverOwnedKeys at hk
      rcases List.mem_append.mp hk with hk | hk
      · exact hasLabelVal_mono (cleanupFrame_trans htr.1 hseq.1) (hep.2 k hk)
      · simp only [List.mem_cons, List.not_mem_nil, or_false] at hk
        rcases hk with hk | hk | hk | hk | hk | hk | hk | hk
        · subst hk
          exact hasLabelVal_mono hseq.1 htr.2.1
        · subst hk
          have hsome1 := cleanupFrame_isSome hep.1 _ hsome
          exact hasLabelVal_mono hseq.1 (htr.2.2 hsome1)
        · subst hk
          exact hseq.2 _ (by simp)
        · subst hk
          exact hseq.2 _ (by simp)
        · subst hk
          exact hseq.2 _ (by simp)
        · subst hk
          exact hseq.2 _ (by simp)
        · subst hk
          exact hseq.2 _ (by simp)
        · subst hk
          exact hseq.2 _ (by simp)
    | err m => simp [serverMarkForCleanup, h1, h2] at h
    | errNotFound => simp [serverMarkForCleanup, h1, h2] at h
    | crash m => simp [serverMarkForCleanup, h1, h2] at h
  | err m => simp [serverMarkForCleanup, h1] at h
  | errNotFound => simp [serverMarkForCleanup, h1] at h
  | crash m => simp [serverMarkForCleanup, h1] at h

/-- Witness for C5: marking the fully-populated fixture store succeeds, and
the theorem yields the frame and labelling guarantees for it. -/
theorem serverMarkForCleanup_frame_witness :
    serverMarkForCleanup serverW storeC5W "migration-complete" "true" = (.ok (), storeC5W')
  ∧ (cleanupFrame "migration-complete" "true" storeC5W storeC5W'
     ∧ ∀ k ∈ serverOwnedKeys serverW, (getObj storeC5W k).isSome →
         hasLabelVal storeC5W' k "migration-complete" "true") := by
  have hok : serverMarkForCleanup serverW storeC5W "migration-complete" "true" =
      (.ok (), storeC5W') := by decide
  exact ⟨hok, serverMarkForCleanup_frame serverW storeC5W storeC5W'
    "migration-complete" "true" hok⟩

end PvcTransfer
